import Mathlib

/-!
Structured diagnostics of the test framework (`types/errors.go`).

A shallow embedding of `GinkgoError`, its `Error()` renderer and the catalog of
constructors on `ginkgoErrors`, followed by the properties the specification states
about them.

Go strings are Lean `String`s.  The formatter package, `NodeType` and `CodeLocation`
live outside the embedded file; what the embedded code needs from them is either a
parameter (`Formatter`, `Types`) or a definition marked as modelled from the
specification.
-/

namespace Ginkgo

/-! ## External primitives -/

/-- Modelled from the spec: the Source Location type (`types.CodeLocation`), which the
embedded file only consumes.  The specification describes it as a plain comparable value
identifying a call site by file and line, whose zero value means that no location is
available. -/
structure CodeLocation where
  FileName : String
  LineNumber : Int
  deriving DecidableEq, Repr

/-- The composite literal `CodeLocation{}`: every field at its zero value. -/
def CodeLocation.zero : CodeLocation := ⟨"", 0⟩

/-- An operand of a formatting call, as package `fmt` sees it: the name of its dynamic
type, the text `%v` prints for it and the text `%#v` prints for it.  `%s` prints the same
text as `%v` for strings and for operands with a `String()` method, the only operands the
templates of this file pair with `%s`. -/
structure Arg where
  typ : String
  text : String
  goSyntax : String
  deriving DecidableEq, Repr

/-- The lower-case hexadecimal digit of `n < 16`. -/
def hexDigit (n : Nat) : Char :=
  "0123456789abcdef".data.getD n '0'

/-- One character inside `strconv.Quote`: the quote and the backslash are escaped, the
control characters of ASCII get their letter (`\a \b \t \n \v \f \r`) or the form `\x` and
two hexadecimal digits, every other character of ASCII stands for itself.  Characters
beyond ASCII are taken as printable and stand for themselves. -/
def quoteChar (c : Char) : List Char :=
  if c = '"' then ['\\', '"']
  else if c = '\\' then ['\\', '\\']
  else if c.toNat = 7 then ['\\', 'a']
  else if c.toNat = 8 then ['\\', 'b']
  else if c = '\t' then ['\\', 't']
  else if c = '\n' then ['\\', 'n']
  else if c.toNat = 11 then ['\\', 'v']
  else if c.toNat = 12 then ['\\', 'f']
  else if c = '\r' then ['\\', 'r']
  else if c.toNat < 32 ∨ c.toNat = 127 then
    ['\\', 'x', hexDigit (c.toNat / 16), hexDigit (c.toNat % 16)]
  else [c]

/-- The text `%#v` prints for a Go string: `strconv.Quote` of it. -/
def goQuote (s : String) : String :=
  ⟨'"' :: (s.data.map quoteChar).flatten ++ ['"']⟩

/-- A Go `string` as a formatting operand. -/
def strArg (s : String) : Arg := ⟨"string", s, goQuote s⟩

/-- What the embedded file takes from the `types` package about node kinds and locations:
how `fmt` prints a `NodeType` and a `CodeLocation` (both have a `String()` method), the
membership predicate `NodeType.Is` and the constant `NodeTypeReportAfterSuite`. -/
structure Types (NodeType : Type) where
  nodeType : NodeType → Arg
  Is : NodeType → NodeType → Bool
  NodeTypeReportAfterSuite : NodeType
  codeLocation : CodeLocation → Arg

/-- The text of `nodeType.String()`. -/
def Types.name {NodeType : Type} (T : Types NodeType) (k : NodeType) : String :=
  (T.nodeType k).text

/-- The text of `cl.String()`. -/
def Types.loc {NodeType : Type} (T : Types NodeType) (cl : CodeLocation) : String :=
  (T.codeLocation cl).text

/-! ## Package `fmt`: the directives the templates use -/

/-- Where the scan of a format string stands: in plain text, in a directive after its `%`
and flags without `#`, or in a directive whose flags hold a `#`. -/
inductive VerbState where
  | text
  | percent
  | sharp
  deriving DecidableEq, Repr

/-- The flag characters of a directive other than `#`. -/
def isFlag (c : Char) : Bool :=
  c = '+' || c = '-' || c = ' ' || c = '0'

/-- Operands left over when the format string is exhausted: `%!(EXTRA type=value, ...)`. -/
def extraOperands : List Arg → List Char
  | [] => []
  | a :: rest =>
    "%!(EXTRA ".data ++ (a.typ ++ "=" ++ a.text).data
      ++ (rest.map fun b => (", " ++ b.typ ++ "=" ++ b.text).data).flatten ++ [')']

/-- One directive with verb `c` (after `%#` when `sharp`) printed for the next operand:
`%v` and `%s` print its text, `%#v` its Go syntax, another verb the bad-verb form
`%!c(type=value)`, and a directive without operand `%!c(MISSING)`. -/
def printVerb (sharp : Bool) (c : Char) : List Arg → List Char
  | [] => '%' :: '!' :: c :: "(MISSING)".data
  | a :: _ =>
    if c = 'v' then (if sharp then a.goSyntax.data else a.text.data)
    else if c = 's' then a.text.data
    else '%' :: '!' :: c :: '(' :: (a.typ ++ "=" ++ a.text).data ++ [')']

/-- The scan of `fmt.Sprintf` over the format string, for the directives `%s`, `%v`, `%#v`
and `%%`, with their flags read; every other character is copied.  Widths, precisions and
argument indexes are outside this fragment (no template of the file uses them). -/
def sprintfAux : VerbState → List Char → List Arg → List Char
  | .text, [], args => extraOperands args
  | .text, c :: rest, args =>
    if c = '%' then sprintfAux .percent rest args else c :: sprintfAux .text rest args
  | .percent, [], args => "%!(NOVERB)".data ++ extraOperands args
  | .percent, c :: rest, args =>
    if c = '%' then '%' :: sprintfAux .text rest args
    else if c = '#' then sprintfAux .sharp rest args
    else if isFlag c then sprintfAux .percent rest args
    else printVerb false c args ++ sprintfAux .text rest args.tail
  | .sharp, [], args => "%!(NOVERB)".data ++ extraOperands args
  | .sharp, c :: rest, args =>
    if c = '%' then '%' :: sprintfAux .text rest args
    else if c = '#' ∨ isFlag c then sprintfAux .sharp rest args
    else printVerb true c args ++ sprintfAux .text rest args.tail

/-- The call `fmt.Sprintf(format, args...)`. -/
def Sprintf (format : String) (args : List Arg) : String :=
  ⟨sprintfAux .text format.data args⟩

/-! ## Package `formatter` -/

/-- What the embedded file takes from the markup-aware formatter as parameters: the
styling each markup token name (`bold`, `red`, `gray`, `cyan`, `underline`, `/`, ...)
expands to, and the column constant `formatter.COLS`. -/
structure Formatter where
  expand : String → String
  COLS : Nat

/-- Modelled from the spec: the scan behind the expansion of embedded style markup tokens
(formatter code that is not part of the embedded file).  Outside a token (`none`) a `{{`
opens one, inside a token (`some acc`, the name read so far, reversed) a `}}` closes it and
the token is replaced by its expansion.  A token left open at the end of the text stays as
written. -/
def styleAux (expand : String → String) : Option (List Char) → List Char → List Char
  | none, '{' :: '{' :: rest => styleAux expand (some []) rest
  | none, c :: rest => c :: styleAux expand none rest
  | none, [] => []
  | some acc, '}' :: '}' :: rest =>
    (expand (String.mk acc.reverse)).data ++ styleAux expand none rest
  | some acc, c :: rest => styleAux expand (some (c :: acc)) rest
  | some acc, [] => '{' :: '{' :: acc.reverse

/-- Modelled from the spec: the expansion of the embedded style markup tokens of a
template into the output's styling mechanism (formatter code that is not part of the
embedded file). -/
def Formatter.style (f : Formatter) (s : String) : String :=
  ⟨styleAux f.expand none s.data⟩

/-- Modelled from the spec: `formatter.F`, the template-substitution function producing a
styled string.  The markup of the template is expanded and the caller-supplied context is
then substituted into it. -/
def Formatter.F (f : Formatter) (format : String) (args : List Arg) : String :=
  Sprintf (f.style format) args

/-- Modelled from the spec: the number of terminal columns a text takes, for the word
wrap.  An escape sequence, from the escape character to the next `m`, takes none; `inStyle`
tells whether the scan stands inside one. -/
def lengthAux : Bool → List Char → Nat
  | _, [] => 0
  | true, c :: rest => if c = 'm' then lengthAux false rest else lengthAux true rest
  | false, c :: rest =>
    if c = '\x1b' then lengthAux true rest else lengthAux false rest + 1

/-- Whether the scan of `lengthAux` stands inside an escape sequence at the end of the
text. -/
def inStyleAfter : Bool → List Char → Bool
  | b, [] => b
  | true, c :: rest => if c = 'm' then inStyleAfter false rest else inStyleAfter true rest
  | false, c :: rest =>
    if c = '\x1b' then inStyleAfter true rest else inStyleAfter false rest

/-- Modelled from the spec: the visible length of a text. -/
def visibleLength (s : List Char) : Nat := lengthAux false s

/-- The text before the first separator, and the pieces after it: `strings.Split` for a
separator of one character, as the first piece and the list of the others. -/
def splitFirst (sep : Char) : List Char → List Char × List (List Char)
  | [] => ([], [])
  | c :: rest =>
    if c = sep then ([], (splitFirst sep rest).1 :: (splitFirst sep rest).2)
    else (c :: (splitFirst sep rest).1, (splitFirst sep rest).2)

/-- The pieces of a text between the separators; never empty. -/
def splitOn (sep : Char) (s : List Char) : List (List Char) :=
  (splitFirst sep s).1 :: (splitFirst sep s).2

/-- The pieces with the separator between them: `strings.Join`. -/
def joinWith (sep : List Char) : List (List Char) → List Char
  | [] => []
  | [l] => l
  | l :: l' :: ls => l ++ sep ++ joinWith sep (l' :: ls)

/-- Modelled from the spec: the words of a line that is too long, put on lines of at most
`maxWidth` columns.  `outWords` are the words of the line under construction and `length`
the columns they take with the blanks between them; a word that no longer fits starts the
next line, and a word longer than the width stands on a line of its own. -/
def wrapWords (maxWidth : Nat) :
    List (List Char) → Nat → List (List Char) → List (List Char)
  | outWords, _, [] => [joinWith [' '] outWords]
  | outWords, length, word :: words =>
    if length + visibleLength word + 1 ≤ maxWidth then
      wrapWords maxWidth (outWords ++ [word]) (length + visibleLength word + 1) words
    else joinWith [' '] outWords :: wrapWords maxWidth [word] (visibleLength word) words

/-- Modelled from the spec: the word wrap of one line.  A line that fits stays as it is,
another one is cut at its blanks. -/
def wrapLine (maxWidth : Nat) (line : List Char) : List (List Char) :=
  if visibleLength line ≤ maxWidth then [line]
  else
    wrapWords maxWidth [(splitFirst ' ' line).1] (visibleLength (splitFirst ' ' line).1)
      (splitFirst ' ' line).2

/-- Modelled from the spec: the indentation of one line by two blanks a level; an empty
line stays empty. -/
def indentLine (indentation : Nat) (line : List Char) : List Char :=
  if line = [] then line else List.replicate (2 * indentation) ' ' ++ line

/-- Modelled from the spec: the lines of a finished text, word-wrapped to the columns left
of `maxWidth` after the indentation (no wrapping for the width 0) and then indented. -/
def wrapText (indentation maxWidth : Nat) (out : List Char) : List Char :=
  let lines := splitOn '\n' out
  let lines :=
    if maxWidth ≠ 0 then (lines.map (wrapLine (maxWidth - indentation * 2))).flatten
    else lines
  let lines := if indentation = 0 then lines else lines.map (indentLine indentation)
  joinWith ['\n'] lines

/-- Modelled from the spec: `formatter.Fiw`, the indented and word-wrapped variant of
`formatter.F`, bound to a column width: the template is formatted as by `formatter.F`, its
lines are wrapped at the blanks to the width and indented. -/
def Formatter.Fiw (f : Formatter) (indentation maxWidth : Nat) (format : String)
    (args : List Arg) : String :=
  if indentation = 0 ∧ maxWidth = 0 then f.F format args
  else ⟨wrapText indentation maxWidth (f.F format args).data⟩

/-- The markup token names that occur in the templates of the embedded file. -/
def vocabulary : List String := ["bold", "red", "gray", "cyan", "underline", "/"]

/-- The styling of the vocabulary introduces no `%`, so that expanding the markup of a
template leaves its directives as they are. -/
def Formatter.VerbFree (f : Formatter) : Prop :=
  ∀ t ∈ vocabulary, '%' ∉ (f.expand t).data

instance (f : Formatter) : Decidable f.VerbFree := by
  unfold Formatter.VerbFree; infer_instance

/-- A piece of styling that takes no column and holds no blank and no line end: an
escape sequence, or nothing. -/
def Unseen (e : List Char) : Prop :=
  ' ' ∉ e ∧ '\n' ∉ e ∧ lengthAux false e = 0 ∧ inStyleAfter false e = false

instance (e : List Char) : Decidable (Unseen e) := by
  unfold Unseen; infer_instance

/-- The styling of the vocabulary takes no columns and holds no blanks, as on a terminal
with or without colours. -/
def Formatter.Invisible (f : Formatter) : Prop :=
  ∀ t ∈ vocabulary, Unseen (f.expand t).data

instance (f : Formatter) : Decidable f.Invisible := by
  unfold Formatter.Invisible; infer_instance

/-- The characters of a text other than blanks and line ends. -/
def nonBlank (s : List Char) : List Char :=
  s.filter fun c => c ≠ ' ' ∧ c ≠ '\n'

/-- The lines of a text. -/
def lines (s : String) : List String :=
  (splitOn '\n' s.data).map String.mk

/-! ## `GinkgoError` and its rendering -/

structure GinkgoError where
  Heading : String
  Message : String
  DocLink : String
  CodeLocation : CodeLocation
  deriving DecidableEq, Repr

variable {NodeType : Type}

/-- The heading line in `Error()`. -/
def GinkgoError.headingPart (f : Formatter) (g : GinkgoError) : String :=
  f.F "{{bold}}{{red}}%s{{/}}\n" [strArg g.Heading]

/-- The location step of `Error()`: what it appends to `out`. -/
def GinkgoError.locationPart (f : Formatter) (T : Types NodeType) (g : GinkgoError) :
    String :=
  if g.CodeLocation ≠ CodeLocation.zero then
    f.F "{{gray}}%s{{/}}\n" [T.codeLocation g.CodeLocation]
  else ""

/-- The message step of `Error()`: what it appends to `out`. -/
def GinkgoError.messagePart (f : Formatter) (g : GinkgoError) : String :=
  if g.Message ≠ "" then f.Fiw 1 f.COLS g.Message [] ++ "\n\n" else ""

/-- The documentation step of `Error()`: what it appends to `out`. -/
def GinkgoError.docLinkPart (f : Formatter) (g : GinkgoError) : String :=
  if g.DocLink ≠ "" then
    f.Fiw 1 f.COLS
      "{{bold}}Learn more at:{{/}} {{cyan}}{{underline}}http://onsi.github.io/ginkgo/#%s{{/}}\n"
      [strArg g.DocLink]
  else ""

/-- The method `func (g GinkgoError) Error() string`. -/
def GinkgoError.Error (f : Formatter) (T : Types NodeType) (g : GinkgoError) : String :=
  let out := f.F "{{bold}}{{red}}%s{{/}}\n" [strArg g.Heading]
  let out :=
    if g.CodeLocation ≠ CodeLocation.zero then
      out ++ f.F "{{gray}}%s{{/}}\n" [T.codeLocation g.CodeLocation]
    else out
  let out :=
    if g.Message ≠ "" then (out ++ f.Fiw 1 f.COLS g.Message []) ++ "\n\n" else out
  let out :=
    if g.DocLink ≠ "" then
      out ++ f.Fiw 1 f.COLS
        "{{bold}}Learn more at:{{/}} {{cyan}}{{underline}}http://onsi.github.io/ginkgo/#%s{{/}}\n"
        [strArg g.DocLink]
    else out
  out

/-! ## The catalog `ginkgoErrors` -/

namespace ginkgoErrors

def UncaughtGinkgoPanic (cl : CodeLocation) : GinkgoError :=
  { Heading := "Your Test Panicked"
    Message := "When you, or your assertion library, calls Ginkgo's Fail(),\nGinkgo panics to prevent subsequent assertions from running.\n\nNormally Ginkgo rescues this panic so you shouldn't see it.\n\nHowever, if you make an assertion in a goroutine, Ginkgo can't capture the panic.\nTo circumvent this, you should call\n\n\tdefer GinkgoRecover()\n\nat the top of the goroutine that caused this panic.\n\nAlternatively, you may have made an assertion outside of a Ginkgo\nleaf node (e.g. in a container node or some out-of-band function) - please move your assertion to\nan appropriate Ginkgo node (e.g. a BeforeSuite, BeforeEach, It, etc...)."
    DocLink := "marking-specs-as-failed"
    CodeLocation := cl }

def RerunningSuite (f : Formatter) : GinkgoError :=
  { Heading := "Rerunning Suite"
    Message := f.F "It looks like you are calling RunSpecs more than once. Ginkgo does not support rerunning suites.  If you want to rerun a suite try {{bold}}ginkgo --repeat=N{{/}} or {{bold}}ginkgo --until-it-fails{{/}}" []
    DocLink := "repeating-test-runs-and-managing-flakey-tests"
    CodeLocation := CodeLocation.zero }

/-! ### Tree construction errors -/

def PushingNodeInRunPhase (f : Formatter) (T : Types NodeType) (nodeType : NodeType)
    (cl : CodeLocation) : GinkgoError :=
  { Heading := "Ginkgo detected an issue with your test structure"
    Message := f.F "It looks like you are trying to add a {{bold}}[%s]{{/}} node\nto the Ginkgo test tree in a leaf node {{bold}}after{{/}} the tests started running.\n\nTo enable randomization and parallelization Ginkgo requires the test tree\nto be fully construted up front.  In practice, this means that you can\nonly create nodes like {{bold}}[%s]{{/}} at the top-level or within the\nbody of a {{bold}}Describe{{/}}, {{bold}}Context{{/}}, or {{bold}}When{{/}}."
      [T.nodeType nodeType, T.nodeType nodeType]
    CodeLocation := cl
    DocLink := "understanding-ginkgos-lifecycle" }

def CaughtPanicDuringABuildPhase (f : Formatter) (caughtPanic : Arg) (cl : CodeLocation) :
    GinkgoError :=
  { Heading := "Assertion or Panic detected during tree construction"
    Message := f.F "Ginkgo detected a panic while constructing the test tree.\nYou may be trying to make an assertion in the body of a container node\n(i.e. {{bold}}Describe{{/}}, {{bold}}Context{{/}}, or {{bold}}When{{/}}).\n\nPlease ensure all assertions are inside leaf nodes such as {{bold}}BeforeEach{{/}},\n{{bold}}It{{/}}, etc.\n\n{{bold}}Here's the content of the panic that was caught:{{/}}\n%v"
      [caughtPanic]
    CodeLocation := cl
    DocLink := "do-not-make-assertions-in-container-node-functions" }

def SuiteNodeInNestedContext (f : Formatter) (T : Types NodeType) (nodeType : NodeType)
    (cl : CodeLocation) : GinkgoError :=
  let docLink := "global-setup-and-teardown-beforesuite-and-aftersuite"
  let docLink :=
    if T.Is nodeType T.NodeTypeReportAfterSuite then
      "generating-custom-reports-when-a-test-suite-completes"
    else docLink
  { Heading := "Ginkgo detected an issue with your test structure"
    Message := f.F "It looks like you are trying to add a {{bold}}[%s]{{/}} node within a container node.\n\n{{bold}}%s{{/}} can only be called at the top level."
      [T.nodeType nodeType, T.nodeType nodeType]
    CodeLocation := cl
    DocLink := docLink }

def SuiteNodeDuringRunPhase (f : Formatter) (T : Types NodeType) (nodeType : NodeType)
    (cl : CodeLocation) : GinkgoError :=
  let docLink := "global-setup-and-teardown-beforesuite-and-aftersuite"
  let docLink :=
    if T.Is nodeType T.NodeTypeReportAfterSuite then
      "generating-custom-reports-when-a-test-suite-completes"
    else docLink
  { Heading := "Ginkgo detected an issue with your test structure"
    Message := f.F "It looks like you are trying to add a {{bold}}[%s]{{/}} node within a leaf node after the test started running.\n\n{{bold}}%s{{/}} can only be called at the top level."
      [T.nodeType nodeType, T.nodeType nodeType]
    CodeLocation := cl
    DocLink := docLink }

/-- The package-level function `ginkgoErrorMultipleSuiteNodes`. -/
def ginkgoErrorMultipleSuiteNodes (f : Formatter) (T : Types NodeType)
    (setupOrTeardown : String) (nodeType : NodeType) (cl : CodeLocation)
    (earlierNodeType : NodeType) (earlierCodeLocation : CodeLocation) : GinkgoError :=
  { Heading := "Ginkgo detected an issue with your test structure"
    Message := f.F "It looks like you are trying to add a {{bold}}[%s]{{/}} node but\nyou already have a {{bold}}[%s]{{/}} node defined at: {{gray}}%s{{/}}.\n\nGinkgo only allows you to define one suite %s node."
      [T.nodeType nodeType, T.nodeType earlierNodeType, T.codeLocation earlierCodeLocation,
        strArg setupOrTeardown]
    CodeLocation := cl
    DocLink := "global-setup-and-teardown-beforesuite-and-aftersuite" }

def MultipleBeforeSuiteNodes (f : Formatter) (T : Types NodeType) (nodeType : NodeType)
    (cl : CodeLocation) (earlierNodeType : NodeType) (earlierCodeLocation : CodeLocation) :
    GinkgoError :=
  ginkgoErrorMultipleSuiteNodes f T "setup" nodeType cl earlierNodeType earlierCodeLocation

def MultipleAfterSuiteNodes (f : Formatter) (T : Types NodeType) (nodeType : NodeType)
    (cl : CodeLocation) (earlierNodeType : NodeType) (earlierCodeLocation : CodeLocation) :
    GinkgoError :=
  ginkgoErrorMultipleSuiteNodes f T "teardown" nodeType cl earlierNodeType earlierCodeLocation

/-! ### Decoration errors -/

def InvalidDecorationForNodeType (f : Formatter) (T : Types NodeType) (cl : CodeLocation)
    (nodeType : NodeType) (decoration : String) : GinkgoError :=
  { Heading := "Invalid Decoration"
    Message := f.F "[%s] node cannot be passed a '%s' decoration"
      [T.nodeType nodeType, strArg decoration]
    CodeLocation := cl
    DocLink := "node-decoration-reference" }

def InvalidDeclarationOfFocusedAndPending (f : Formatter) (T : Types NodeType)
    (cl : CodeLocation) (nodeType : NodeType) : GinkgoError :=
  { Heading := "Invalid Combination of Decorations: Focused and Pending"
    Message := f.F "[%s] node was decorated with both Focus and Pending.  At most one is allowed."
      [T.nodeType nodeType]
    CodeLocation := cl
    DocLink := "node-decoration-reference" }

def UnknownDecoration (f : Formatter) (T : Types NodeType) (cl : CodeLocation)
    (nodeType : NodeType) (decoration : Arg) : GinkgoError :=
  { Heading := "Unkown Decoration"
    Message := f.F "[%s] node was passed an unkown decoration: '%#v'"
      [T.nodeType nodeType, decoration]
    CodeLocation := cl
    DocLink := "node-decoration-reference" }

/-- The `reflect.Type` operand `t` is given as `fmt` sees it. -/
def InvalidBodyType (f : Formatter) (T : Types NodeType) (t : Arg) (cl : CodeLocation)
    (nodeType : NodeType) : GinkgoError :=
  { Heading := "Invalid Function"
    Message := f.F "[%s] node must be passed {{bold}}func(){{/}} - i.e. functions that take nothing and return nothing.\nYou passed {{bold}}%s{{/}} instead."
      [T.nodeType nodeType, t]
    CodeLocation := cl
    DocLink := "node-decoration-reference" }

def MultipleBodyFunctions (f : Formatter) (T : Types NodeType) (cl : CodeLocation)
    (nodeType : NodeType) : GinkgoError :=
  { Heading := "Multiple Functions"
    Message := f.F "[%s] node must be passed a single {{bold}}func(){{/}} - but more than one was passed in."
      [T.nodeType nodeType]
    CodeLocation := cl
    DocLink := "node-decoration-reference" }

def MissingBodyFunction (f : Formatter) (T : Types NodeType) (cl : CodeLocation)
    (nodeType : NodeType) : GinkgoError :=
  { Heading := "Missing Functions"
    Message := f.F "[%s] node must be passed a single {{bold}}func(){{/}} - but none was passed in."
      [T.nodeType nodeType]
    CodeLocation := cl
    DocLink := "node-decoration-reference" }

/-! ### ReportEntry errors -/

def TooManyReportEntryValues (f : Formatter) (cl : CodeLocation) (arg : Arg) : GinkgoError :=
  { Heading := "Too Many ReportEntry Values"
    Message := f.F "{{bold}}AddGinkgoReport{{/}} can only be given one value. Got unexpected value: %#v"
      [arg]
    CodeLocation := cl
    DocLink := "attaching-data-to-reports" }

def AddReportEntryNotDuringRunPhase (f : Formatter) (cl : CodeLocation) : GinkgoError :=
  { Heading := "Ginkgo detected an issue with your test structure"
    Message := f.F "It looks like you are calling {{bold}}AddGinkgoReport{{/}} outside of a running test.  Make sure you call {{bold}}AddGinkgoReport{{/}} inside a runnable node such as It or BeforeEach and not inside the body of a container such as Describe or Context." []
    CodeLocation := cl
    DocLink := "attaching-data-to-reports" }

/-! ### Parallel synchronization errors -/

def AggregatedReportUnavailableDueToNodeDisappearing : GinkgoError :=
  { Heading := "Test Report unavailable because a Ginkgo parallel process disappeared"
    Message := "The aggregated report could not be fetched for a ReportAfterSuite node.  A Ginkgo parallel process disappeared before it could finish reporting."
    DocLink := ""
    CodeLocation := CodeLocation.zero }

def SynchronizedBeforeSuiteFailedOnNode1 : GinkgoError :=
  { Heading := "SynchronizedBeforeSuite failed on Ginkgo parallel process #1"
    Message := "The first SynchronizedBeforeSuite function running on Ginkgo parallel process #1 failed.  This test suite will now abort."
    DocLink := ""
    CodeLocation := CodeLocation.zero }

def SynchronizedBeforeSuiteDisappearedOnNode1 : GinkgoError :=
  { Heading := "Node 1 disappeard before SynchronizedBeforeSuite could report back"
    Message := "Ginkgo parallel process #1 disappeared before the first SynchronizedBeforeSuite function completed.  This test suite will now abort."
    DocLink := ""
    CodeLocation := CodeLocation.zero }

/-! ### Configuration errors -/

def sharedParallelErrorMessage : String :=
  "It looks like you are trying to run tests in parallel with go test.\nThis is unsupported and you should use the ginkgo CLI instead."

def InvalidParallelTotalConfiguration : GinkgoError :=
  { Heading := "-ginkgo.parallel.total must be >= 1"
    Message := sharedParallelErrorMessage
    DocLink := "parallel-specs"
    CodeLocation := CodeLocation.zero }

def InvalidParallelNodeConfiguration : GinkgoError :=
  { Heading := "-ginkgo.parallel.node is one-indexed and must be <= ginkgo.parallel.total"
    Message := sharedParallelErrorMessage
    DocLink := "parallel-specs"
    CodeLocation := CodeLocation.zero }

def MissingParallelHostConfiguration : GinkgoError :=
  { Heading := "-ginkgo.parallel.host is missing"
    Message := sharedParallelErrorMessage
    DocLink := "parallel-specs"
    CodeLocation := CodeLocation.zero }

def UnreachableParallelHost (host : String) : GinkgoError :=
  { Heading := "Could not reach ginkgo.parallel.host:" ++ host
    Message := sharedParallelErrorMessage
    DocLink := "parallel-specs"
    CodeLocation := CodeLocation.zero }

def DryRunInParallelConfiguration : GinkgoError :=
  { Heading := "Ginkgo only performs -dryRun in serial mode."
    Message := "Please try running ginkgo -dryRun again, but without -p or -nodes to ensure the test is running in series."
    DocLink := ""
    CodeLocation := CodeLocation.zero }

def ConflictingVerboseSuccinctConfiguration : GinkgoError :=
  { Heading := "Conflicting reporter verbosity settings -v and --succinct."
    Message := "You can't set both -v and --succinct.  Please pick one!"
    DocLink := ""
    CodeLocation := CodeLocation.zero }

def InvalidGoFlagCount : GinkgoError :=
  { Heading := "Use of go test -count"
    Message := "Ginkgo does not support using go test -count to rerun test suites.  Only -count=1 is allowed.  To repeat test runs, please use the ginkgo cli and `ginkgo -until-it-fails` or `ginkgo -repeat=N`."
    DocLink := ""
    CodeLocation := CodeLocation.zero }

def InvalidGoFlagParallel : GinkgoError :=
  { Heading := "Use of go test -parallel"
    Message := "Go test's implementation of parallelization does not actually parallelize Ginkgo tests.  Please use the ginkgo cli and `ginkgo -p` or `ginkgo -nodes=N` instead."
    DocLink := ""
    CodeLocation := CodeLocation.zero }

def BothRepeatAndUntilItFails : GinkgoError :=
  { Heading := "--repeat and --until-it-fails are both set"
    Message := "--until-it-fails directs Ginkgo to rerun tests indefinitely until they fail.  --repeat directs Ginkgo to rerun tests a set number of times.  You can't set both... which would you like?"
    DocLink := ""
    CodeLocation := CodeLocation.zero }

end ginkgoErrors

end Ginkgo

namespace Ginkgo

/-! ## A sample instance of the external primitives -/

/-- Some node kinds, for concrete instances. -/
inductive SampleNodeType where
  | It
  | Describe
  | BeforeSuite
  | SynchronizedBeforeSuite
  | AfterSuite
  | SynchronizedAfterSuite
  | ReportAfterSuite
  deriving DecidableEq, Repr

/-- The display name of a sample node kind. -/
def SampleNodeType.String : SampleNodeType → String
  | .It => "It"
  | .Describe => "Describe"
  | .BeforeSuite => "BeforeSuite"
  | .SynchronizedBeforeSuite => "SynchronizedBeforeSuite"
  | .AfterSuite => "AfterSuite"
  | .SynchronizedAfterSuite => "SynchronizedAfterSuite"
  | .ReportAfterSuite => "ReportAfterSuite"

/-- The sample instance of `Types`: kinds print as their names, locations as `file:line`,
and `Is` is equality of kinds. -/
def sampleTypes : Types SampleNodeType where
  nodeType k := ⟨"types.NodeType", k.String, k.String⟩
  Is a b := decide (a = b)
  NodeTypeReportAfterSuite := .ReportAfterSuite
  codeLocation cl :=
    ⟨"types.CodeLocation", cl.FileName ++ ":" ++ toString cl.LineNumber,
      cl.FileName ++ ":" ++ toString cl.LineNumber⟩

/-- The styling table of a colour terminal: the escape sequence of each markup token. -/
def colors : List (String × String) :=
  [("/", "\x1b[0m"), ("bold", "\x1b[1m"), ("underline", "\x1b[4m"),
    ("red", "\x1b[38;5;9m"), ("orange", "\x1b[38;5;214m"), ("coral", "\x1b[38;5;204m"),
    ("magenta", "\x1b[38;5;13m"), ("green", "\x1b[38;5;10m"),
    ("dark-green", "\x1b[38;5;28m"), ("yellow", "\x1b[38;5;11m"),
    ("light-yellow", "\x1b[38;5;228m"), ("cyan", "\x1b[38;5;14m"),
    ("gray", "\x1b[38;5;243m"), ("light-gray", "\x1b[38;5;246m"),
    ("blue", "\x1b[38;5;12m")]

/-- A formatter for a terminal without styling: every token of the table expands to
nothing, any other token stays as written; 80 columns. -/
def plainFormatter : Formatter where
  expand t := if (colors.lookup t).isSome then "" else "\x7b\x7b" ++ t ++ "\x7d\x7d"
  COLS := 80

/-- A formatter for a colour terminal: every token of the table expands to its escape
sequence, any other token stays as written; 80 columns. -/
def terminalFormatter : Formatter where
  expand t := (colors.lookup t).getD ("\x7b\x7b" ++ t ++ "\x7d\x7d")
  COLS := 80

/-! ## Occurrences of one text in another -/

/-- Whether `sub` occurs in `s` as a contiguous piece. -/
def Contains (s sub : String) : Prop := sub.data <:+: s.data

instance (s sub : String) : Decidable (Contains s sub) := by
  unfold Contains; infer_instance

/-- The offsets in `s`, counted from `i`, at which `sub` starts. -/
def positionsFrom (sub : List Char) : Nat → List Char → List Nat
  | i, [] => if sub = [] then [i] else []
  | i, c :: rest =>
    if sub <+: c :: rest then i :: positionsFrom sub (i + 1) rest
    else positionsFrom sub (i + 1) rest

/-- The offsets in `s` at which `sub` starts. -/
def positions (s sub : String) : List Nat := positionsFrom sub.data 0 s.data

/-- How many times `sub` occurs in `s`. -/
def occurrences (s sub : String) : Nat := (positions s sub).length

/-- The texts `x`, `y`, `z` each occur exactly once in `s`, and they do so one after the
other: an occurrence of `x` ends before one of `y` starts, which ends before one of `z`
starts. -/
def OnceEachInOrder (s x y z : String) : Prop :=
  occurrences s x = 1 ∧ occurrences s y = 1 ∧ occurrences s z = 1
    ∧ ∃ i ∈ positions s x, ∃ j ∈ positions s y, ∃ l ∈ positions s z,
        i + x.length ≤ j ∧ j + y.length ≤ l

instance (s x y z : String) : Decidable (OnceEachInOrder s x y z) := by
  unfold OnceEachInOrder; infer_instance

/-! ## Formatting lemmas -/

theorem sprintfAux_text_append (p q : List Char) (args : List Arg) (h : '%' ∉ p) :
    sprintfAux .text (p ++ q) args = p ++ sprintfAux .text q args := by
  induction p with
  | nil => rfl
  | cons c p ih =>
    simp only [List.mem_cons, not_or] at h
    have hc : c ≠ '%' := fun e => h.1 e.symm
    simp [sprintfAux, hc, ih h.2]

theorem VerbFree.bold {f : Formatter} (h : f.VerbFree) : '%' ∉ (f.expand "bold").data :=
  h "bold" (by simp [vocabulary])

theorem VerbFree.red {f : Formatter} (h : f.VerbFree) : '%' ∉ (f.expand "red").data :=
  h "red" (by simp [vocabulary])

theorem VerbFree.gray {f : Formatter} (h : f.VerbFree) : '%' ∉ (f.expand "gray").data :=
  h "gray" (by simp [vocabulary])

theorem VerbFree.cyan {f : Formatter} (h : f.VerbFree) : '%' ∉ (f.expand "cyan").data :=
  h "cyan" (by simp [vocabulary])

theorem VerbFree.underline {f : Formatter} (h : f.VerbFree) :
    '%' ∉ (f.expand "underline").data :=
  h "underline" (by simp [vocabulary])

theorem VerbFree.reset {f : Formatter} (h : f.VerbFree) : '%' ∉ (f.expand "/").data :=
  h "/" (by simp [vocabulary])

/-- The heading template, formatted. -/
theorem F_heading (f : Formatter) (hf : f.VerbFree) (h : String) :
    f.F "{{bold}}{{red}}%s{{/}}\n" [strArg h]
      = f.expand "bold" ++ f.expand "red" ++ h ++ f.expand "/" ++ "\n" := by
  apply String.ext
  simp [Formatter.F, Sprintf, Formatter.style, styleAux, sprintfAux, isFlag, sprintfAux_text_append,
    VerbFree.bold hf, VerbFree.red hf, VerbFree.reset hf, printVerb, strArg, extraOperands]

/-- The location template, formatted. -/
theorem F_location (f : Formatter) (hf : f.VerbFree) (a : Arg) :
    f.F "{{gray}}%s{{/}}\n" [a] = f.expand "gray" ++ a.text ++ f.expand "/" ++ "\n" := by
  apply String.ext
  simp [Formatter.F, Sprintf, Formatter.style, styleAux, sprintfAux, isFlag, sprintfAux_text_append,
    VerbFree.gray hf, VerbFree.reset hf, printVerb, extraOperands]

/-- The documentation template, formatted. -/
theorem F_docLink (f : Formatter) (hf : f.VerbFree) (d : String) :
    f.F "{{bold}}Learn more at:{{/}} {{cyan}}{{underline}}http://onsi.github.io/ginkgo/#%s{{/}}\n"
        [strArg d]
      = f.expand "bold" ++ "Learn more at:" ++ f.expand "/" ++ " " ++ f.expand "cyan"
          ++ f.expand "underline" ++ "http://onsi.github.io/ginkgo/#" ++ d ++ f.expand "/"
          ++ "\n" := by
  apply String.ext
  simp [Formatter.F, Sprintf, Formatter.style, styleAux, sprintfAux, isFlag, sprintfAux_text_append,
    VerbFree.bold hf, VerbFree.cyan hf, VerbFree.underline hf, VerbFree.reset hf, printVerb,
    strArg, extraOperands]

/-- The rendering is the concatenation of its four steps. -/
theorem Error_eq_parts (f : Formatter) (T : Types NodeType) (g : GinkgoError) :
    g.Error f T
      = g.headingPart f ++ g.locationPart f T ++ g.messagePart f ++ g.docLinkPart f := by
  apply String.ext
  simp only [GinkgoError.Error, GinkgoError.headingPart, GinkgoError.locationPart,
    GinkgoError.messagePart, GinkgoError.docLinkPart]
  split_ifs <;> simp [String.data_append]

/-! ## Lemmas on the word wrap -/

theorem splitOn_cons (sep a : Char) (t : List Char) :
    splitOn sep (a :: t)
      = if a = sep then [] :: splitOn sep t
        else (a :: (splitFirst sep t).1) :: (splitFirst sep t).2 := by
  unfold splitOn
  by_cases h : a = sep <;> simp [splitFirst, h]

theorem splitOn_of_not_mem (sep : Char) (t : List Char) (h : sep ∉ t) :
    splitOn sep t = [t] := by
  induction t with
  | nil => rfl
  | cons a t ih =>
    simp only [List.mem_cons, not_or] at h
    have ha : a ≠ sep := fun e => h.1 e.symm
    have ih' := ih h.2
    unfold splitOn at ih'
    simp only [List.cons.injEq] at ih'
    rw [splitOn_cons, if_neg ha, ih'.1, ih'.2]

theorem splitOn_snoc (sep c : Char) (hc : c ≠ sep) (t : List Char) :
    ∃ init l, splitOn sep (t ++ [c]) = init ++ [l ++ [c]] := by
  induction t with
  | nil =>
    refine ⟨[], [], ?_⟩
    simp [splitOn, splitFirst, hc]
  | cons a t ih =>
    obtain ⟨init, l, h⟩ := ih
    rw [List.cons_append, splitOn_cons]
    by_cases ha : a = sep
    · rw [if_pos ha, h]
      exact ⟨[] :: init, l, rfl⟩
    · rw [if_neg ha]
      unfold splitOn at h
      cases init with
      | nil =>
        simp only [List.nil_append, List.cons.injEq] at h
        rw [h.1, h.2]
        exact ⟨[], a :: l, rfl⟩
      | cons i is =>
        simp only [List.cons_append, List.cons.injEq] at h
        rw [h.1, h.2]
        exact ⟨(a :: i) :: is, l, rfl⟩

theorem joinWith_snoc (sep : List Char) (init : List (List Char)) (l : List Char) :
    ∃ x, joinWith sep (init ++ [l]) = x ++ l := by
  induction init with
  | nil => exact ⟨[], rfl⟩
  | cons i is ih =>
    obtain ⟨x, hx⟩ := ih
    cases is with
    | nil =>
      refine ⟨i ++ sep, ?_⟩
      simp [joinWith]
    | cons j js =>
      refine ⟨i ++ sep ++ x, ?_⟩
      simp only [List.cons_append] at hx
      show i ++ sep ++ joinWith sep (j :: (js ++ [l])) = i ++ sep ++ x ++ l
      rw [hx]
      simp only [List.append_assoc]

theorem suffix_snoc (A B ws : List (List Char)) (x : List Char) (hB : B ≠ [])
    (h : A ++ B = ws ++ [x]) : ∃ ws', B = ws' ++ [x] := by
  rcases List.eq_nil_or_concat B with hnil | ⟨L, b, hb⟩
  · exact absurd hnil hB
  · subst hb
    rw [List.concat_eq_append, ← List.append_assoc] at h
    have := List.append_inj' h rfl
    simp only [List.cons.injEq, and_true] at this
    exact ⟨L, by rw [List.concat_eq_append, this.2]⟩

theorem wrapWords_snoc (w : Nat) (c : Char) (wl : List Char) :
    ∀ (words outWords : List (List Char)) (len : Nat) (ws : List (List Char)),
      outWords ++ words = ws ++ [wl ++ [c]] →
      ∃ init l, wrapWords w outWords len words = init ++ [l ++ [c]] := by
  intro words
  induction words with
  | nil =>
    intro outWords len ws h
    rw [List.append_nil] at h
    obtain ⟨x, hx⟩ := joinWith_snoc [' '] ws (wl ++ [c])
    refine ⟨[], x ++ wl, ?_⟩
    simp [wrapWords, h, hx]
  | cons word words ih =>
    intro outWords len ws h
    unfold wrapWords
    split_ifs with hfit
    · exact ih (outWords ++ [word]) _ ws (by simpa using h)
    · obtain ⟨ws', hws'⟩ := suffix_snoc outWords (word :: words) ws (wl ++ [c]) (by simp) h
      obtain ⟨init, l, hl⟩ := ih [word] (visibleLength word) ws' (by simpa using hws')
      exact ⟨joinWith [' '] outWords :: init, l, by rw [hl]; rfl⟩

theorem wrapLine_snoc (w : Nat) (c : Char) (hc : c ≠ ' ') (t : List Char) :
    ∃ init l, wrapLine w (t ++ [c]) = init ++ [l ++ [c]] := by
  unfold wrapLine
  split_ifs with hfit
  · exact ⟨[], t, rfl⟩
  · obtain ⟨ws, wl, h⟩ := splitOn_snoc ' ' c hc t
    unfold splitOn at h
    exact wrapWords_snoc w c wl _ _ _ ws (by simpa using h)

theorem wrapText_snoc (n w : Nat) (c : Char) (hn : c ≠ '\n') (hs : c ≠ ' ')
    (t : List Char) : ∃ x, wrapText n w (t ++ [c]) = x ++ [c] := by
  obtain ⟨init, l, h⟩ := splitOn_snoc '\n' c hn t
  -- the wrapped lines end with a line that ends with `c`
  have hw : ∃ init' l', (if w ≠ 0 then
      ((splitOn '\n' (t ++ [c])).map (wrapLine (w - n * 2))).flatten
      else splitOn '\n' (t ++ [c])) = init' ++ [l' ++ [c]] := by
    split_ifs with hw0
    · obtain ⟨i2, l2, h2⟩ := wrapLine_snoc (w - n * 2) c hs l
      refine ⟨(init.map (wrapLine (w - n * 2))).flatten ++ i2, l2, ?_⟩
      rw [h]
      simp [h2]
    · exact ⟨init, l, h⟩
  obtain ⟨init', l', h'⟩ := hw
  unfold wrapText
  simp only [h']
  split_ifs with hn0
  · obtain ⟨x, hx⟩ := joinWith_snoc ['\n'] init' (l' ++ [c])
    exact ⟨x ++ l', by rw [hx, List.append_assoc]⟩
  · have hi : indentLine n (l' ++ [c]) = (List.replicate (2 * n) ' ' ++ l') ++ [c] := by
      simp [indentLine]
    obtain ⟨x, hx⟩ := joinWith_snoc ['\n'] (init'.map (indentLine n))
      ((List.replicate (2 * n) ' ' ++ l') ++ [c])
    refine ⟨x ++ (List.replicate (2 * n) ' ' ++ l'), ?_⟩
    rw [List.map_append, List.map_singleton, hi, hx]
    simp

theorem styleAux_plain (expand : String → String) (m : List Char) (h : '{' ∉ m) :
    styleAux expand none m = m := by
  induction m with
  | nil => rfl
  | cons c m ih =>
    simp only [List.mem_cons, not_or] at h
    have hc : c ≠ '{' := fun e => h.1 e.symm
    have hstep : styleAux expand none (c :: m) = c :: styleAux expand none m := by
      rw [styleAux]
      intro rest hrest _
      exact hc hrest
    rw [hstep, ih h.2]

theorem sprintfAux_plain (m : List Char) (h : '%' ∉ m) :
    sprintfAux .text m [] = m := by
  have := sprintfAux_text_append m [] [] h
  simpa [sprintfAux, extraOperands] using this

/-- A text without markup and without directives is formatted to itself. -/
theorem F_plain (f : Formatter) (m : String) (hp : '%' ∉ m.data) (hb : '{' ∉ m.data) :
    f.F m [] = m := by
  apply String.ext
  simp only [Formatter.F, Sprintf, Formatter.style]
  rw [styleAux_plain _ _ hb, sprintfAux_plain _ hp]

/-- A line that needs no wrapping is indented, and that is all. -/
theorem wrapText_one_line (n w : Nat) (m : List Char) (hm : m ≠ []) (hl : '\n' ∉ m)
    (hfit : w ≠ 0 → visibleLength m ≤ w - n * 2) (hn : n ≠ 0) :
    wrapText n w m = List.replicate (2 * n) ' ' ++ m := by
  unfold wrapText
  rw [splitOn_of_not_mem _ _ hl]
  by_cases hw : w = 0
  · simp [hw, hn, indentLine, hm, joinWith]
  · simp [hw, hn, indentLine, hm, joinWith, wrapLine, hfit hw]

theorem joinWith_cons (sep l : List Char) (ls : List (List Char)) :
    joinWith sep (l :: ls) = if ls = [] then l else l ++ sep ++ joinWith sep ls := by
  cases ls <;> simp [joinWith]

theorem joinWith_splitOn (sep : Char) (t : List Char) :
    joinWith [sep] (splitOn sep t) = t := by
  induction t with
  | nil => rfl
  | cons a t ih =>
    rw [splitOn_cons]
    unfold splitOn at ih
    by_cases ha : a = sep
    · rw [if_pos ha]
      unfold splitOn
      rw [joinWith_cons, if_neg (by simp), ih, ha]
      rfl
    · rw [if_neg ha, joinWith_cons]
      rw [joinWith_cons] at ih
      split_ifs with hnil
      · rw [if_pos hnil] at ih
        rw [ih]
      · rw [if_neg hnil] at ih
        rw [List.cons_append, List.cons_append, ih]

theorem nonBlank_append (x y : List Char) : nonBlank (x ++ y) = nonBlank x ++ nonBlank y := by
  simp [nonBlank]

theorem nonBlank_joinWith (sep : Char) (hsep : sep = ' ' ∨ sep = '\n')
    (ls : List (List Char)) :
    nonBlank (joinWith [sep] ls) = (ls.map nonBlank).flatten := by
  have hs : nonBlank [sep] = [] := by
    rcases hsep with h | h <;> subst h <;> decide
  induction ls with
  | nil => rfl
  | cons l ls ih =>
    rw [joinWith_cons]
    split_ifs with hnil
    · subst hnil
      simp
    · rw [nonBlank_append, nonBlank_append, hs, ih]
      simp

theorem nonBlank_wrapWords (w : Nat) :
    ∀ (words outWords : List (List Char)) (len : Nat),
      ((wrapWords w outWords len words).map nonBlank).flatten
        = ((outWords ++ words).map nonBlank).flatten := by
  intro words
  induction words with
  | nil =>
    intro outWords len
    simp [wrapWords, nonBlank_joinWith ' ' (Or.inl rfl)]
  | cons word words ih =>
    intro outWords len
    unfold wrapWords
    split_ifs with hfit
    · rw [ih]
      simp
    · rw [List.map_cons, List.flatten_cons, ih, nonBlank_joinWith ' ' (Or.inl rfl)]
      simp

theorem nonBlank_wrapLine (w : Nat) (line : List Char) :
    ((wrapLine w line).map nonBlank).flatten = nonBlank line := by
  unfold wrapLine
  split_ifs with hfit
  · simp
  · rw [nonBlank_wrapWords]
    have h := nonBlank_joinWith ' ' (Or.inl rfl) (splitOn ' ' line)
    rw [joinWith_splitOn] at h
    rw [h]
    rfl

theorem nonBlank_indentLine (n : Nat) (line : List Char) :
    nonBlank (indentLine n line) = nonBlank line := by
  unfold indentLine
  split_ifs with h
  · rfl
  · rw [nonBlank_append]
    have : nonBlank (List.replicate (2 * n) ' ') = [] := by
      simp [nonBlank, List.filter_eq_nil_iff]
    rw [this]
    rfl

theorem nonBlank_wrapLines (w : Nat) (lines : List (List Char)) :
    (((lines.map (wrapLine w)).flatten).map nonBlank).flatten
      = (lines.map nonBlank).flatten := by
  induction lines with
  | nil => rfl
  | cons l ls ih =>
    simp only [List.map_cons, List.flatten_cons, List.map_append, List.flatten_append, ih,
      nonBlank_wrapLine]

/-- The word wrap keeps the text: it only changes blanks and line ends. -/
theorem nonBlank_wrapText (n w : Nat) (t : List Char) :
    nonBlank (wrapText n w t) = nonBlank t := by
  have ht := nonBlank_joinWith '\n' (Or.inr rfl) (splitOn '\n' t)
  rw [joinWith_splitOn] at ht
  unfold wrapText
  simp only []
  rw [nonBlank_joinWith '\n' (Or.inr rfl), ht]
  have hind : ∀ ls : List (List Char),
      ((ls.map (indentLine n)).map nonBlank).flatten = (ls.map nonBlank).flatten := by
    intro ls
    rw [List.map_map]
    congr 1
    apply List.map_congr_left
    intro l _
    exact nonBlank_indentLine n l
  by_cases hw : w = 0 <;> by_cases hn : n = 0 <;>
    simp only [hw, hn, ne_eq, not_true_eq_false, not_false_eq_true, if_true, if_false,
      hind, nonBlank_wrapLines]

theorem lengthAux_append (x y : List Char) :
    ∀ b, lengthAux b (x ++ y) = lengthAux b x + lengthAux (inStyleAfter b x) y := by
  induction x with
  | nil => intro b; cases b <;> simp [lengthAux, inStyleAfter]
  | cons c x ih =>
    intro b
    cases b
    · by_cases hc : c = '\x1b'
      · simp [lengthAux, inStyleAfter, hc, ih]
      · simp [lengthAux, inStyleAfter, hc, ih]; omega
    · by_cases hc : c = 'm'
      · simp [lengthAux, inStyleAfter, hc, ih]
      · simp [lengthAux, inStyleAfter, hc, ih]

theorem inStyleAfter_append (x y : List Char) :
    ∀ b, inStyleAfter b (x ++ y) = inStyleAfter (inStyleAfter b x) y := by
  induction x with
  | nil => intro b; cases b <;> simp [inStyleAfter]
  | cons c x ih =>
    intro b
    cases b
    · by_cases hc : c = '\x1b' <;> simp [inStyleAfter, hc, ih]
    · by_cases hc : c = 'm' <;> simp [inStyleAfter, hc, ih]

theorem lengthAux_plain (x : List Char) (h : '\x1b' ∉ x) :
    lengthAux false x = x.length ∧ inStyleAfter false x = false := by
  induction x with
  | nil => simp [lengthAux, inStyleAfter]
  | cons c x ih =>
    simp only [List.mem_cons, not_or] at h
    have hc : c ≠ '\x1b' := fun e => h.1 e.symm
    simp [lengthAux, inStyleAfter, hc, ih h.2]

theorem visibleLength_unseen_append (e x : List Char) (he : Unseen e) :
    visibleLength (e ++ x) = visibleLength x := by
  unfold visibleLength
  rw [lengthAux_append, he.2.2.1, he.2.2.2, Nat.zero_add]

theorem visibleLength_append_unseen (x e : List Char) (hx : '\x1b' ∉ x) (he : Unseen e) :
    visibleLength (x ++ e) = x.length := by
  unfold visibleLength
  rw [lengthAux_append, (lengthAux_plain x hx).1, (lengthAux_plain x hx).2, he.2.2.1,
    Nat.add_zero]

theorem splitOn_append_sep (sep : Char) (w x : List Char) (hw : sep ∉ w) :
    splitOn sep (w ++ sep :: x) = w :: splitOn sep x := by
  induction w with
  | nil => simp [splitOn_cons]
  | cons a w ih =>
    simp only [List.mem_cons, not_or] at hw
    have ha : a ≠ sep := fun e => hw.1 e.symm
    have ih' := ih hw.2
    rw [List.cons_append, splitOn_cons, if_neg ha]
    unfold splitOn at ih'
    simp only [List.cons.injEq] at ih'
    rw [ih'.1, ih'.2]
    rfl

/-- Words without a blank, joined by blanks, split into the same words. -/
theorem splitOn_joinWith (sep : Char) :
    ∀ (w : List Char) (ws : List (List Char)), (∀ x ∈ w :: ws, sep ∉ x) →
      splitOn sep (joinWith [sep] (w :: ws)) = w :: ws := by
  intro w ws
  induction ws generalizing w with
  | nil =>
    intro h
    exact splitOn_of_not_mem sep w (h w (by simp))
  | cons v vs ih =>
    intro h
    have hw := h w (by simp)
    have hrest : ∀ x ∈ v :: vs, sep ∉ x := fun x hx => h x (List.mem_cons_of_mem _ hx)
    show splitOn sep (w ++ [sep] ++ joinWith [sep] (v :: vs)) = _
    rw [List.append_assoc, List.singleton_append, splitOn_append_sep sep w _ hw, ih v hrest]

theorem wrapWords_four (W : Nat) (w1 w2 w3 w4 : List Char)
    (h3 : visibleLength w1 + visibleLength w2 + 1 + visibleLength w3 + 1 ≤ W)
    (h4 : W < visibleLength w1 + visibleLength w2 + 1 + visibleLength w3 + 1
      + visibleLength w4 + 1) :
    wrapWords W [w1] (visibleLength w1) [w2, w3, w4]
      = [joinWith [' '] [w1, w2, w3], w4] := by
  have h2 : visibleLength w1 + visibleLength w2 + 1 ≤ W := by omega
  have h4' : ¬ (visibleLength w1 + visibleLength w2 + 1 + visibleLength w3 + 1
      + visibleLength w4 + 1 ≤ W) := by omega
  simp [wrapWords, h2, h3, h4', joinWith]

/-- The word wrap of one line of four words followed by a line end: the line stays whole
when it fits, and gives its last word to a second line when only the first three words
fit. -/
theorem wrapText_four_words (cols : Nat) (w1 w2 w3 w4 : List Char)
    (hb : ∀ x ∈ [w1, w2, w3, w4], ' ' ∉ x) (hn : ∀ x ∈ [w1, w2, w3, w4], '\n' ∉ x)
    (h1 : w1 ≠ []) (h4 : w4 ≠ []) (hcols : cols ≠ 0) :
    (visibleLength (joinWith [' '] [w1, w2, w3, w4]) ≤ cols - 1 * 2 →
      wrapText 1 cols (joinWith [' '] [w1, w2, w3, w4] ++ ['\n'])
        = [' ', ' '] ++ joinWith [' '] [w1, w2, w3, w4] ++ ['\n'])
    ∧ (¬ visibleLength (joinWith [' '] [w1, w2, w3, w4]) ≤ cols - 1 * 2 →
      visibleLength w1 + visibleLength w2 + 1 + visibleLength w3 + 1 ≤ cols - 1 * 2 →
      cols - 1 * 2 < visibleLength w1 + visibleLength w2 + 1 + visibleLength w3 + 1
        + visibleLength w4 + 1 →
      wrapText 1 cols (joinWith [' '] [w1, w2, w3, w4] ++ ['\n'])
        = [' ', ' '] ++ joinWith [' '] [w1, w2, w3] ++ ['\n'] ++ [' ', ' '] ++ w4
          ++ ['\n']) := by
  have hnl : '\n' ∉ joinWith [' '] [w1, w2, w3, w4] := by
    have a1 := hn w1 (by simp)
    have a2 := hn w2 (by simp)
    have a3 := hn w3 (by simp)
    have a4 := hn w4 (by simp)
    simp [joinWith, a1, a2, a3, a4]
  have hsplit : splitOn '\n' (joinWith [' '] [w1, w2, w3, w4] ++ ['\n'])
      = [joinWith [' '] [w1, w2, w3, w4], []] := by
    rw [splitOn_append_sep '\n' _ [] hnl]
    rfl
  have hempty : ∀ W, wrapLine W [] = [[]] := by
    intro W
    simp [wrapLine, visibleLength, lengthAux]
  have hL : joinWith [' '] [w1, w2, w3, w4] ≠ [] := by
    simp [joinWith, h1]
  have hwords : splitOn ' ' (joinWith [' '] [w1, w2, w3, w4]) = [w1, w2, w3, w4] :=
    splitOn_joinWith ' ' w1 [w2, w3, w4] hb
  unfold splitOn at hwords
  simp only [List.cons.injEq] at hwords
  have hind : ∀ x : List Char, x ≠ [] → indentLine 1 x = [' ', ' '] ++ x := by
    intro x hx
    simp [indentLine, hx, List.replicate]
  have hind0 : indentLine 1 [] = [] := by simp [indentLine]
  constructor
  · intro hfit
    have hwl : wrapLine (cols - 1 * 2) (joinWith [' '] [w1, w2, w3, w4])
        = [joinWith [' '] [w1, w2, w3, w4]] := by
      unfold wrapLine
      rw [if_pos hfit]
    unfold wrapText
    simp only [hsplit, hcols, ne_eq, not_false_eq_true, if_true, List.map_cons, List.map_nil,
      hempty, Nat.one_ne_zero, if_false, hwl, List.flatten_cons, List.flatten_nil,
      List.singleton_append, List.append_nil, hind _ hL, hind0]
    simp [joinWith]
  · intro hfit h3 h4'
    have hl3 : joinWith [' '] [w1, w2, w3] ≠ [] := by
      simp [joinWith, h1]
    have hwl : wrapLine (cols - 1 * 2) (joinWith [' '] [w1, w2, w3, w4])
        = [joinWith [' '] [w1, w2, w3], w4] := by
      unfold wrapLine
      rw [if_neg hfit, hwords.1, hwords.2]
      exact wrapWords_four _ w1 w2 w3 w4 h3 h4'
    unfold wrapText
    simp only [hsplit, hcols, ne_eq, not_false_eq_true, if_true, List.map_cons, List.map_nil,
      hempty, Nat.one_ne_zero, if_false, hwl, List.flatten_cons, List.flatten_nil,
      List.singleton_append, List.append_nil, List.cons_append, List.nil_append,
      hind _ hl3, hind _ h4, hind0]
    simp [joinWith]

theorem visibleLength_plain_append (p x : List Char) (hp : '\x1b' ∉ p) :
    visibleLength (p ++ x) = p.length + visibleLength x := by
  unfold visibleLength
  rw [lengthAux_append, (lengthAux_plain p hp).1, (lengthAux_plain p hp).2]

/-- The word wrap of the documentation line, with `B`, `R`, `C` and `U` the styling of
`bold`, `/`, `cyan` and `underline` and `d` the anchor. -/
theorem wrapText_docLink (cols : Nat) (B R C U d : List Char) (hB : Unseen B)
    (hR : Unseen R) (hC : Unseen C) (hU : Unseen U) (hd1 : ' ' ∉ d) (hd2 : '\n' ∉ d)
    (hd3 : '\x1b' ∉ d) :
    (45 + d.length ≤ cols - 2 →
      wrapText 1 cols
          (B ++ "Learn more at:".data ++ R ++ " ".data ++ C ++ U
            ++ "http://onsi.github.io/ginkgo/#".data ++ d ++ R ++ "\n".data)
        = "  ".data ++ B ++ "Learn more at:".data ++ R ++ " ".data ++ C ++ U
            ++ "http://onsi.github.io/ginkgo/#".data ++ d ++ R ++ "\n".data)
    ∧ (14 ≤ cols - 2 → cols - 2 < 45 + d.length →
      wrapText 1 cols
          (B ++ "Learn more at:".data ++ R ++ " ".data ++ C ++ U
            ++ "http://onsi.github.io/ginkgo/#".data ++ d ++ R ++ "\n".data)
        = "  ".data ++ B ++ "Learn more at:".data ++ R ++ "\n".data ++ "  ".data ++ C ++ U
            ++ "http://onsi.github.io/ginkgo/#".data ++ d ++ R ++ "\n".data) := by
  have v1 : visibleLength (B ++ "Learn".data) = 5 := by
    rw [visibleLength_unseen_append _ _ hB]; decide
  have v2 : visibleLength "more".data = 4 := by decide
  have v3 : visibleLength ("at:".data ++ R) = 3 :=
    visibleLength_append_unseen _ _ (by decide) hR
  have vd : visibleLength (d ++ R) = d.length := visibleLength_append_unseen _ _ hd3 hR
  have v4 : visibleLength (C ++ (U ++ ("http://onsi.github.io/ginkgo/#".data ++ (d ++ R))))
      = 30 + d.length := by
    rw [visibleLength_unseen_append _ _ hC, visibleLength_unseen_append _ _ hU,
      visibleLength_plain_append _ _ (by decide), vd]
    rfl
  have hjoin : joinWith [' '] [B ++ "Learn".data, "more".data, "at:".data ++ R,
      C ++ (U ++ ("http://onsi.github.io/ginkgo/#".data ++ (d ++ R)))]
      = B ++ ("Learn more at:".data ++ (R ++ (" ".data ++ (C ++ (U
          ++ ("http://onsi.github.io/ginkgo/#".data ++ (d ++ R))))))) := by
    simp [joinWith]
  have hjoin3 : joinWith [' '] [B ++ "Learn".data, "more".data, "at:".data ++ R]
      = B ++ ("Learn more at:".data ++ R) := by
    simp [joinWith]
  have vL : visibleLength (joinWith [' '] [B ++ "Learn".data, "more".data, "at:".data ++ R,
      C ++ (U ++ ("http://onsi.github.io/ginkgo/#".data ++ (d ++ R)))]) = 45 + d.length := by
    rw [hjoin, visibleLength_unseen_append _ _ hB,
      visibleLength_plain_append _ _ (by decide), visibleLength_unseen_append _ _ hR,
      visibleLength_plain_append _ _ (by decide), v4]
    have e1 : "Learn more at:".data.length = 14 := by decide
    have e2 : " ".data.length = 1 := by decide
    omega
  have hcols : 14 ≤ cols - 2 → cols ≠ 0 := by omega
  have hb : ∀ x ∈ [B ++ "Learn".data, "more".data, "at:".data ++ R,
      C ++ (U ++ ("http://onsi.github.io/ginkgo/#".data ++ (d ++ R)))], ' ' ∉ x := by
    intro x hx
    simp only [List.mem_cons, List.mem_singleton, List.not_mem_nil, or_false] at hx
    rcases hx with h | h | h | h <;> subst h <;>
      simp [hB.1, hR.1, hC.1, hU.1, hd1]
  have hn : ∀ x ∈ [B ++ "Learn".data, "more".data, "at:".data ++ R,
      C ++ (U ++ ("http://onsi.github.io/ginkgo/#".data ++ (d ++ R)))], '\n' ∉ x := by
    intro x hx
    simp only [List.mem_cons, List.mem_singleton, List.not_mem_nil, or_false] at hx
    rcases hx with h | h | h | h <;> subst h <;>
      simp [hB.2.1, hR.2.1, hC.2.1, hU.2.1, hd2]
  have h1 : B ++ "Learn".data ≠ [] := by simp
  have h4 : C ++ (U ++ ("http://onsi.github.io/ginkgo/#".data ++ (d ++ R))) ≠ [] := by simp
  constructor
  · intro hfit
    have hc : cols ≠ 0 := by omega
    have key := (wrapText_four_words cols _ _ _ _ hb hn h1 h4 hc).1 (by rw [vL]; omega)
    rw [hjoin] at key
    simpa [List.append_assoc] using key
  · intro h14 hlong
    have hc : cols ≠ 0 := by omega
    have key := (wrapText_four_words cols _ _ _ _ hb hn h1 h4 hc).2 (by rw [vL]; omega)
      (by rw [v1, v2, v3]; omega) (by rw [v1, v2, v3, v4]; omega)
    rw [hjoin, hjoin3] at key
    simpa [List.append_assoc] using key

/-! ## The renderer -/

/-- The rendering of a diagnostic with a location. -/
theorem Error_of_location (f : Formatter) (T : Types NodeType) (g : GinkgoError)
    (hf : f.VerbFree) (h : g.CodeLocation ≠ CodeLocation.zero) :
    g.Error f T
      = (f.expand "bold" ++ f.expand "red" ++ g.Heading ++ f.expand "/" ++ "\n")
        ++ (f.expand "gray" ++ T.loc g.CodeLocation ++ f.expand "/" ++ "\n")
        ++ (g.messagePart f ++ g.docLinkPart f) := by
  have hparts := Error_eq_parts f T g
  rw [GinkgoError.headingPart, F_heading f hf] at hparts
  rw [hparts, GinkgoError.locationPart, if_pos h, F_location f hf, Types.loc]
  simp [String.append_assoc]

/-- The rendering of a diagnostic without location. -/
theorem Error_of_no_location (f : Formatter) (T : Types NodeType) (g : GinkgoError)
    (hf : f.VerbFree) (h : g.CodeLocation = CodeLocation.zero) :
    g.Error f T
      = (f.expand "bold" ++ f.expand "red" ++ g.Heading ++ f.expand "/" ++ "\n")
        ++ (g.messagePart f ++ g.docLinkPart f) := by
  have hparts := Error_eq_parts f T g
  rw [GinkgoError.headingPart, F_heading f hf] at hparts
  have h' : ¬ g.CodeLocation ≠ CodeLocation.zero := fun k => k h
  rw [hparts, GinkgoError.locationPart, if_neg h']
  simp [String.append_assoc]

/-- C1: the rendering carries a location line, the formatted location followed by a
newline and placed directly after the heading line, exactly when the location is not the
zero value; for the zero value nothing stands between the heading line and the rest of
the output. -/
theorem Error_location_line (f : Formatter) (T : Types NodeType) (g : GinkgoError)
    (hf : f.VerbFree) :
    (g.CodeLocation ≠ CodeLocation.zero →
      g.Error f T
        = (f.expand "bold" ++ f.expand "red" ++ g.Heading ++ f.expand "/" ++ "\n")
          ++ (f.expand "gray" ++ T.loc g.CodeLocation ++ f.expand "/" ++ "\n")
          ++ (g.messagePart f ++ g.docLinkPart f))
    ∧ (g.CodeLocation = CodeLocation.zero →
      g.Error f T
        = (f.expand "bold" ++ f.expand "red" ++ g.Heading ++ f.expand "/" ++ "\n")
          ++ (g.messagePart f ++ g.docLinkPart f)) :=
  ⟨Error_of_location f T g hf, Error_of_no_location f T g hf⟩

/-- C1 at a concrete diagnostic with a location, on the colour terminal. -/
theorem Error_location_line_witness :
    terminalFormatter.VerbFree
    ∧ (GinkgoError.mk "Boom" "" "" ⟨"a_test.go", 7⟩).Error terminalFormatter sampleTypes
        = "\x1b[1m\x1b[38;5;9mBoom\x1b[0m\n\x1b[38;5;243ma_test.go:7\x1b[0m\n" :=
  ⟨by decide,
    ((Error_location_line terminalFormatter sampleTypes
      (GinkgoError.mk "Boom" "" "" ⟨"a_test.go", 7⟩) (by decide)).1 (by decide)).trans
      (by decide)⟩

/-- The wrapped message ends with the last character of the formatted message, when that
is neither a line end nor a blank. -/
theorem Fiw_message_last (f : Formatter) (m : String) (t : List Char) (c : Char)
    (ht : (f.F m []).data = t ++ [c]) (hn : c ≠ '\n') (hs : c ≠ ' ') :
    ∃ x, (f.Fiw 1 f.COLS m []).data = x ++ [c] := by
  obtain ⟨x, hx⟩ := wrapText_snoc 1 f.COLS c hn hs t
  refine ⟨x, ?_⟩
  simp only [Formatter.Fiw, Nat.one_ne_zero, false_and, if_false, ht, hx]

/-- The wrapped message has the characters of the formatted message, blanks and line ends
apart. -/
theorem Fiw_message_text (f : Formatter) (m : String) :
    nonBlank (f.Fiw 1 f.COLS m []).data = nonBlank (f.F m []).data := by
  simp only [Formatter.Fiw, Nat.one_ne_zero, false_and, if_false, nonBlank_wrapText]

/-- A message of one line that fits, without markup and directives, is indented by two
blanks. -/
theorem Fiw_message_one_line (f : Formatter) (m : String) (hp : '%' ∉ m.data)
    (hb : '{' ∉ m.data) (hl : '\n' ∉ m.data) (hm : m ≠ "")
    (hfit : visibleLength m.data ≤ f.COLS - 2) :
    f.Fiw 1 f.COLS m [] = "  " ++ m := by
  have hd : m.data ≠ [] := fun e => hm (String.ext e)
  apply String.ext
  simp only [Formatter.Fiw, Nat.one_ne_zero, false_and, if_false, F_plain f m hp hb,
    String.data_append]
  rw [wrapText_one_line 1 f.COLS m.data hd hl (fun _ => by simpa using hfit) (by decide)]
  rfl

/-- C2 as amended: an empty message adds nothing to the rendering, which is then the
heading part, the location part and the documentation part; a non-empty message adds its
indented, word-wrapped text followed by two newlines.  The wrapped text has the characters
of the formatted message, and ends with its last character when that is neither a line end
nor a blank: the two newlines are then exactly one blank line after the message text.  A
message without markup and directives is formatted to itself, and one that fits on a line
is rendered as that line behind two blanks. -/
theorem Error_message_block (f : Formatter) (T : Types NodeType) (g : GinkgoError) :
    (g.Message = "" →
      g.Error f T = g.headingPart f ++ g.locationPart f T ++ g.docLinkPart f)
    ∧ (g.Message ≠ "" →
      g.Error f T
        = g.headingPart f ++ g.locationPart f T
          ++ (f.Fiw 1 f.COLS g.Message [] ++ "\n\n") ++ g.docLinkPart f)
    ∧ (∀ t c, (f.F g.Message []).data = t ++ [c] → c ≠ '\n' → c ≠ ' ' →
        ∃ x, (f.Fiw 1 f.COLS g.Message [] ++ "\n\n").data = x ++ [c] ++ ['\n', '\n'])
    ∧ nonBlank (f.Fiw 1 f.COLS g.Message []).data = nonBlank (f.F g.Message []).data
    ∧ ('%' ∉ g.Message.data → '{' ∉ g.Message.data → f.F g.Message [] = g.Message)
    ∧ ('%' ∉ g.Message.data → '{' ∉ g.Message.data → '\n' ∉ g.Message.data →
        g.Message ≠ "" → visibleLength g.Message.data ≤ f.COLS - 2 →
        f.Fiw 1 f.COLS g.Message [] ++ "\n\n" = "  " ++ g.Message ++ "\n\n") := by
  have hparts := Error_eq_parts f T g
  refine ⟨?_, ?_, ?_, Fiw_message_text f g.Message, F_plain f g.Message, ?_⟩
  · intro h
    have h' : ¬ g.Message ≠ "" := fun k => k h
    rw [hparts, GinkgoError.messagePart, if_neg h']
    simp
  · intro h
    rw [hparts, GinkgoError.messagePart, if_pos h]
  · intro t c ht hn hs
    obtain ⟨x, hx⟩ := Fiw_message_last f g.Message t c ht hn hs
    exact ⟨x, by rw [String.data_append, hx]⟩
  · intro hp hb hl hm hfit
    rw [Fiw_message_one_line f g.Message hp hb hl hm hfit]

set_option maxRecDepth 100000 in
/-- C2 as amended, for the message "hello world" and for no message, on the terminal
without styling. -/
theorem Error_message_block_witness :
    (GinkgoError.mk "H" "hello world" "parallel-specs" CodeLocation.zero).Error
        plainFormatter sampleTypes
      = "H\n  hello world\n\n  Learn more at: http://onsi.github.io/ginkgo/#parallel-specs\n"
    ∧ (GinkgoError.mk "H" "" "parallel-specs" CodeLocation.zero).Error
        plainFormatter sampleTypes
      = "H\n  Learn more at: http://onsi.github.io/ginkgo/#parallel-specs\n" :=
  ⟨((Error_message_block plainFormatter sampleTypes
      (GinkgoError.mk "H" "hello world" "parallel-specs" CodeLocation.zero)).2.1
        (by decide)).trans (by decide),
    ((Error_message_block plainFormatter sampleTypes
      (GinkgoError.mk "H" "" "parallel-specs" CodeLocation.zero)).1 rfl).trans (by decide)⟩

set_option maxRecDepth 100000 in
/-- C2 as stated fails for the message "x" followed by a newline: its text is followed by
three newlines, that is by two blank lines. -/
theorem Error_message_two_blank_lines :
    (GinkgoError.mk "H" "x\n" "parallel-specs" CodeLocation.zero).Error
        plainFormatter sampleTypes
      = "H\n  x\n\n\n  Learn more at: http://onsi.github.io/ginkgo/#parallel-specs\n"
    ∧ lines ((GinkgoError.mk "H" "x\n" "parallel-specs" CodeLocation.zero).Error
        plainFormatter sampleTypes)
      = ["H", "  x", "", "",
          "  Learn more at: http://onsi.github.io/ginkgo/#parallel-specs", ""] := by
  decide

/-- The dressed documentation line of an anchor without blanks, on a styling that takes no
columns: whole when it fits, and with the address on a line of its own when it does not. -/
theorem Fiw_docLink (f : Formatter) (hf : f.VerbFree) (hi : f.Invisible) (d : String)
    (hd1 : ' ' ∉ d.data) (hd2 : '\n' ∉ d.data) (hd3 : '\x1b' ∉ d.data) :
    (45 + d.length ≤ f.COLS - 2 →
      f.Fiw 1 f.COLS
          "{{bold}}Learn more at:{{/}} {{cyan}}{{underline}}http://onsi.github.io/ginkgo/#%s{{/}}\n"
          [strArg d]
        = "  " ++ f.expand "bold" ++ "Learn more at:" ++ f.expand "/" ++ " "
            ++ f.expand "cyan" ++ f.expand "underline" ++ "http://onsi.github.io/ginkgo/#"
            ++ d ++ f.expand "/" ++ "\n")
    ∧ (14 ≤ f.COLS - 2 → f.COLS - 2 < 45 + d.length →
      f.Fiw 1 f.COLS
          "{{bold}}Learn more at:{{/}} {{cyan}}{{underline}}http://onsi.github.io/ginkgo/#%s{{/}}\n"
          [strArg d]
        = "  " ++ f.expand "bold" ++ "Learn more at:" ++ f.expand "/" ++ "\n" ++ "  "
            ++ f.expand "cyan" ++ f.expand "underline" ++ "http://onsi.github.io/ginkgo/#"
            ++ d ++ f.expand "/" ++ "\n") := by
  have hB := hi "bold" (by simp [vocabulary])
  have hR := hi "/" (by simp [vocabulary])
  have hC := hi "cyan" (by simp [vocabulary])
  have hU := hi "underline" (by simp [vocabulary])
  have key := wrapText_docLink f.COLS _ _ _ _ d.data hB hR hC hU hd1 hd2 hd3
  constructor
  · intro h
    apply String.ext
    simp only [Formatter.Fiw, Nat.one_ne_zero, false_and, if_false, F_docLink f hf,
      String.data_append]
    exact key.1 h
  · intro h14 hlong
    apply String.ext
    simp only [Formatter.Fiw, Nat.one_ne_zero, false_and, if_false, F_docLink f hf,
      String.data_append]
    exact key.2 h14 hlong

/-- C3 as amended: an empty documentation anchor appends nothing to the rendering.  A
non-empty anchor without blanks appends, at the end of the rendering and behind two blanks,
the styled text "Learn more at:" and the fixed base URL immediately followed by the anchor:
on one line when the 45 columns of the fixed text and the anchor fit the columns left by
the indentation, and otherwise with the address moved to the next line, behind two blanks
of its own.  This holds for a styling that takes no columns. -/
theorem Error_docLink_line (f : Formatter) (T : Types NodeType) (g : GinkgoError)
    (hf : f.VerbFree) (hi : f.Invisible) :
    (g.DocLink = "" →
      g.Error f T = g.headingPart f ++ g.locationPart f T ++ g.messagePart f)
    ∧ (g.DocLink ≠ "" → ' ' ∉ g.DocLink.data → '\n' ∉ g.DocLink.data →
        '\x1b' ∉ g.DocLink.data →
      (45 + g.DocLink.length ≤ f.COLS - 2 →
        g.Error f T
          = g.headingPart f ++ g.locationPart f T ++ g.messagePart f
            ++ ("  " ++ f.expand "bold" ++ "Learn more at:" ++ f.expand "/" ++ " "
              ++ f.expand "cyan" ++ f.expand "underline" ++ "http://onsi.github.io/ginkgo/#"
              ++ g.DocLink ++ f.expand "/" ++ "\n"))
      ∧ (14 ≤ f.COLS - 2 → f.COLS - 2 < 45 + g.DocLink.length →
        g.Error f T
          = g.headingPart f ++ g.locationPart f T ++ g.messagePart f
            ++ ("  " ++ f.expand "bold" ++ "Learn more at:" ++ f.expand "/" ++ "\n" ++ "  "
              ++ f.expand "cyan" ++ f.expand "underline" ++ "http://onsi.github.io/ginkgo/#"
              ++ g.DocLink ++ f.expand "/" ++ "\n"))) := by
  have hparts := Error_eq_parts f T g
  constructor
  · intro h
    have h' : ¬ g.DocLink ≠ "" := fun k => k h
    rw [hparts, GinkgoError.docLinkPart, if_neg h']
    simp
  · intro h hd1 hd2 hd3
    have key := Fiw_docLink f hf hi g.DocLink hd1 hd2 hd3
    constructor
    · intro hfit
      rw [hparts, GinkgoError.docLinkPart, if_pos h, key.1 hfit]
    · intro h14 hlong
      rw [hparts, GinkgoError.docLinkPart, if_pos h, key.2 h14 hlong]

set_option maxRecDepth 100000 in
/-- C3 as amended, on the colour terminal: the anchor `parallel-specs` stays on the line of
"Learn more at:", the anchor of `RerunningSuite` goes to the next line. -/
theorem Error_docLink_line_witness :
    terminalFormatter.VerbFree ∧ terminalFormatter.Invisible
    ∧ (GinkgoError.mk "Boom" "" "parallel-specs" CodeLocation.zero).Error terminalFormatter
          sampleTypes
        = "\x1b[1m\x1b[38;5;9mBoom\x1b[0m\n  \x1b[1mLearn more at:\x1b[0m \x1b[38;5;14m\x1b[4mhttp://onsi.github.io/ginkgo/#parallel-specs\x1b[0m\n"
    ∧ (GinkgoError.mk "Boom" "" "repeating-test-runs-and-managing-flakey-tests"
          CodeLocation.zero).Error terminalFormatter sampleTypes
        = "\x1b[1m\x1b[38;5;9mBoom\x1b[0m\n  \x1b[1mLearn more at:\x1b[0m\n  \x1b[38;5;14m\x1b[4mhttp://onsi.github.io/ginkgo/#repeating-test-runs-and-managing-flakey-tests\x1b[0m\n" :=
  ⟨by decide, by decide,
    ((((Error_docLink_line terminalFormatter sampleTypes
      (GinkgoError.mk "Boom" "" "parallel-specs" CodeLocation.zero) (by decide)
        (by decide)).2 (by decide) (by decide) (by decide) (by decide)).1
          (by decide)).trans (by decide)),
    ((((Error_docLink_line terminalFormatter sampleTypes
      (GinkgoError.mk "Boom" "" "repeating-test-runs-and-managing-flakey-tests"
        CodeLocation.zero) (by decide) (by decide)).2 (by decide) (by decide) (by decide)
          (by decide)).2 (by decide) (by decide)).trans (by decide))⟩

set_option maxRecDepth 100000 in
/-- C3 as stated fails on both sides.  In the rendering of `RerunningSuite` the line of
"Learn more at:" ends there and the address stands on the next line, so that no line holds
both; and a diagnostic without anchor whose message reads "Learn more at: the docs" has a
line with these words. -/
theorem Error_docLink_line_broken :
    (lines ((ginkgoErrors.RerunningSuite plainFormatter).Error plainFormatter
        sampleTypes)).reverse.take 3
      = ["", "  http://onsi.github.io/ginkgo/#repeating-test-runs-and-managing-flakey-tests",
          "  Learn more at:"]
    ∧ (¬ ∃ line ∈ lines ((ginkgoErrors.RerunningSuite plainFormatter).Error plainFormatter
          sampleTypes),
        Contains line "Learn more at:"
          ∧ Contains line
              ("http://onsi.github.io/ginkgo/#"
                ++ (ginkgoErrors.RerunningSuite plainFormatter).DocLink))
    ∧ (GinkgoError.mk "H" "Learn more at: the docs" "" CodeLocation.zero).DocLink = ""
    ∧ (∃ line ∈ lines ((GinkgoError.mk "H" "Learn more at: the docs" ""
          CodeLocation.zero).Error plainFormatter sampleTypes),
        Contains line "Learn more at:") := by
  decide

/-! ## The catalog -/

set_option maxRecDepth 100000 in
/-- The message of the duplicate suite node diagnostic: the template with the current
kind, the earlier kind, the earlier location and the word for the phase substituted. -/
theorem ginkgoErrorMultipleSuiteNodes_Message (f : Formatter) (T : Types NodeType)
    (hf : f.VerbFree) (w : String) (k : NodeType) (cl : CodeLocation) (k' : NodeType)
    (cl' : CodeLocation) :
    (ginkgoErrors.ginkgoErrorMultipleSuiteNodes f T w k cl k' cl').Message
      = "It looks like you are trying to add a " ++ f.expand "bold" ++ "[" ++ T.name k ++ "]"
          ++ f.expand "/" ++ " node but\nyou already have a " ++ f.expand "bold" ++ "["
          ++ T.name k' ++ "]" ++ f.expand "/" ++ " node defined at: " ++ f.expand "gray"
          ++ T.loc cl' ++ f.expand "/"
          ++ ".\n\nGinkgo only allows you to define one suite " ++ w ++ " node." := by
  apply String.ext
  simp [ginkgoErrors.ginkgoErrorMultipleSuiteNodes, Formatter.F, Sprintf, Formatter.style,
    styleAux, sprintfAux, isFlag, sprintfAux_text_append, VerbFree.bold hf, VerbFree.gray hf,
    VerbFree.reset hf, printVerb, strArg, extraOperands, Types.name, Types.loc]

/-- C4 as amended: the message of the duplicate suite node diagnostic is the template with
one place each for the current node's kind, the earlier node's kind and the earlier node's
location, filled in that order. -/
theorem MultipleSuiteNodes_Message_places (f : Formatter) (T : Types NodeType)
    (hf : f.VerbFree) (k : NodeType) (cl : CodeLocation) (k' : NodeType)
    (cl' : CodeLocation) :
    (ginkgoErrors.MultipleBeforeSuiteNodes f T k cl k' cl').Message
      = "It looks like you are trying to add a " ++ f.expand "bold" ++ "[" ++ T.name k ++ "]"
          ++ f.expand "/" ++ " node but\nyou already have a " ++ f.expand "bold" ++ "["
          ++ T.name k' ++ "]" ++ f.expand "/" ++ " node defined at: " ++ f.expand "gray"
          ++ T.loc cl' ++ f.expand "/"
          ++ ".\n\nGinkgo only allows you to define one suite " ++ "setup" ++ " node."
    ∧ (ginkgoErrors.MultipleAfterSuiteNodes f T k cl k' cl').Message
      = "It looks like you are trying to add a " ++ f.expand "bold" ++ "[" ++ T.name k ++ "]"
          ++ f.expand "/" ++ " node but\nyou already have a " ++ f.expand "bold" ++ "["
          ++ T.name k' ++ "]" ++ f.expand "/" ++ " node defined at: " ++ f.expand "gray"
          ++ T.loc cl' ++ f.expand "/"
          ++ ".\n\nGinkgo only allows you to define one suite " ++ "teardown" ++ " node." :=
  ⟨ginkgoErrorMultipleSuiteNodes_Message f T hf "setup" k cl k' cl',
    ginkgoErrorMultipleSuiteNodes_Message f T hf "teardown" k cl k' cl'⟩

set_option maxRecDepth 100000 in
/-- C4 as amended, for a second `BeforeSuite` on the colour terminal. -/
theorem MultipleSuiteNodes_Message_places_witness :
    terminalFormatter.VerbFree
    ∧ (ginkgoErrors.MultipleBeforeSuiteNodes terminalFormatter sampleTypes
        SampleNodeType.BeforeSuite ⟨"b_test.go", 10⟩ SampleNodeType.BeforeSuite
        ⟨"a_test.go", 3⟩).Message
      = "It looks like you are trying to add a \x1b[1m[BeforeSuite]\x1b[0m node but\nyou already have a \x1b[1m[BeforeSuite]\x1b[0m node defined at: \x1b[38;5;243ma_test.go:3\x1b[0m.\n\nGinkgo only allows you to define one suite setup node." :=
  ⟨by decide,
    ((MultipleSuiteNodes_Message_places terminalFormatter sampleTypes (by decide)
      SampleNodeType.BeforeSuite ⟨"b_test.go", 10⟩ SampleNodeType.BeforeSuite
      ⟨"a_test.go", 3⟩).1).trans (by decide)⟩

set_option maxRecDepth 100000 in
/-- C4 as stated fails for a second `BeforeSuite` declared at `b_test.go:10` after one at
`a_test.go:3`: the kind occurs twice in the message, at offsets 39 and 81, the earlier
location once, at offset 111, after both, so that nothing is cited once each in the order
earlier kind, earlier location, current kind. -/
theorem MultipleSuiteNodes_not_earlier_first :
    positions (ginkgoErrors.MultipleBeforeSuiteNodes plainFormatter sampleTypes
        SampleNodeType.BeforeSuite ⟨"b_test.go", 10⟩ SampleNodeType.BeforeSuite
        ⟨"a_test.go", 3⟩).Message "BeforeSuite" = [39, 81]
    ∧ positions (ginkgoErrors.MultipleBeforeSuiteNodes plainFormatter sampleTypes
        SampleNodeType.BeforeSuite ⟨"b_test.go", 10⟩ SampleNodeType.BeforeSuite
        ⟨"a_test.go", 3⟩).Message "a_test.go:3" = [111]
    ∧ ¬ OnceEachInOrder
        (ginkgoErrors.MultipleBeforeSuiteNodes plainFormatter sampleTypes
          SampleNodeType.BeforeSuite ⟨"b_test.go", 10⟩ SampleNodeType.BeforeSuite
          ⟨"a_test.go", 3⟩).Message
        (sampleTypes.name SampleNodeType.BeforeSuite) (sampleTypes.loc ⟨"a_test.go", 3⟩)
        (sampleTypes.name SampleNodeType.BeforeSuite) := by
  decide

/-- C5 as amended: the message of the duplicate suite node diagnostic cites the current
node's kind first and then the earlier node's kind and the earlier node's location, all
three always, and is the same text whatever the current node's location; that location is
the location of the diagnostic, which the rendering shows on the line beneath the heading
when it is not the zero value. -/
theorem MultipleSuiteNodes_cites_current_then_earlier (f : Formatter) (T : Types NodeType)
    (hf : f.VerbFree) (k k' : NodeType) (cl' : CodeLocation) :
    (∃ a b c d, ∀ cl, (ginkgoErrors.MultipleBeforeSuiteNodes f T k cl k' cl').Message
        = a ++ T.name k ++ b ++ T.name k' ++ c ++ T.loc cl' ++ d)
    ∧ (∃ a b c d, ∀ cl, (ginkgoErrors.MultipleAfterSuiteNodes f T k cl k' cl').Message
        = a ++ T.name k ++ b ++ T.name k' ++ c ++ T.loc cl' ++ d)
    ∧ (∀ cl, (ginkgoErrors.MultipleBeforeSuiteNodes f T k cl k' cl').CodeLocation = cl
        ∧ (ginkgoErrors.MultipleAfterSuiteNodes f T k cl k' cl').CodeLocation = cl)
    ∧ (∀ cl, cl ≠ CodeLocation.zero →
        (∃ rest, (ginkgoErrors.MultipleBeforeSuiteNodes f T k cl k' cl').Error f T
          = (f.expand "bold" ++ f.expand "red"
              ++ "Ginkgo detected an issue with your test structure" ++ f.expand "/" ++ "\n")
            ++ (f.expand "gray" ++ T.loc cl ++ f.expand "/" ++ "\n") ++ rest)
        ∧ (∃ rest, (ginkgoErrors.MultipleAfterSuiteNodes f T k cl k' cl').Error f T
          = (f.expand "bold" ++ f.expand "red"
              ++ "Ginkgo detected an issue with your test structure" ++ f.expand "/" ++ "\n")
            ++ (f.expand "gray" ++ T.loc cl ++ f.expand "/" ++ "\n") ++ rest)) := by
  refine ⟨⟨"It looks like you are trying to add a " ++ f.expand "bold" ++ "[",
      "]" ++ f.expand "/" ++ " node but\nyou already have a " ++ f.expand "bold" ++ "[",
      "]" ++ f.expand "/" ++ " node defined at: " ++ f.expand "gray",
      f.expand "/" ++ ".\n\nGinkgo only allows you to define one suite " ++ "setup"
        ++ " node.", fun cl => ?_⟩,
    ⟨"It looks like you are trying to add a " ++ f.expand "bold" ++ "[",
      "]" ++ f.expand "/" ++ " node but\nyou already have a " ++ f.expand "bold" ++ "[",
      "]" ++ f.expand "/" ++ " node defined at: " ++ f.expand "gray",
      f.expand "/" ++ ".\n\nGinkgo only allows you to define one suite " ++ "teardown"
        ++ " node.", fun cl => ?_⟩,
    fun cl => ⟨rfl, rfl⟩,
    fun cl h => ⟨⟨_, Error_of_location f T _ hf h⟩, ⟨_, Error_of_location f T _ hf h⟩⟩⟩
  · rw [ginkgoErrors.MultipleBeforeSuiteNodes, ginkgoErrorMultipleSuiteNodes_Message f T hf]
    simp only [String.append_assoc]
  · rw [ginkgoErrors.MultipleAfterSuiteNodes, ginkgoErrorMultipleSuiteNodes_Message f T hf]
    simp only [String.append_assoc]

set_option maxRecDepth 100000 in
/-- C5 as amended, for a `SynchronizedAfterSuite` declared at `b_test.go:10` after an
`AfterSuite`, on the terminal without styling. -/
theorem MultipleSuiteNodes_cites_current_then_earlier_witness :
    plainFormatter.VerbFree
    ∧ (∃ a b c d, ∀ cl, (ginkgoErrors.MultipleAfterSuiteNodes plainFormatter sampleTypes
          SampleNodeType.SynchronizedAfterSuite cl SampleNodeType.AfterSuite
          ⟨"a_test.go", 3⟩).Message
        = a ++ "SynchronizedAfterSuite" ++ b ++ "AfterSuite" ++ c ++ "a_test.go:3" ++ d)
    ∧ (∃ rest, (ginkgoErrors.MultipleAfterSuiteNodes plainFormatter sampleTypes
          SampleNodeType.SynchronizedAfterSuite ⟨"b_test.go", 10⟩ SampleNodeType.AfterSuite
          ⟨"a_test.go", 3⟩).Error plainFormatter sampleTypes
        = "Ginkgo detected an issue with your test structure\n" ++ "b_test.go:10\n" ++ rest) :=
  have h := MultipleSuiteNodes_cites_current_then_earlier plainFormatter sampleTypes
    (by decide) SampleNodeType.SynchronizedAfterSuite SampleNodeType.AfterSuite
    ⟨"a_test.go", 3⟩
  ⟨by decide, h.2.1, (h.2.2.2 ⟨"b_test.go", 10⟩ (by decide)).2⟩

set_option maxRecDepth 100000 in
/-- C5 as stated fails for a `SynchronizedAfterSuite` declared at `b_test.go:10` after an
`AfterSuite` declared at `a_test.go:3`: the message does not contain the current node's
location. -/
theorem MultipleSuiteNodes_current_location_not_cited :
    ¬ Contains
        (ginkgoErrors.MultipleAfterSuiteNodes plainFormatter sampleTypes
          SampleNodeType.SynchronizedAfterSuite ⟨"b_test.go", 10⟩ SampleNodeType.AfterSuite
          ⟨"a_test.go", 3⟩).Message
        (sampleTypes.loc ⟨"b_test.go", 10⟩) := by
  decide

/-- C6 as amended: the host is the end of the heading of `UnreachableParallelHost`, after
the fixed text "Could not reach ginkgo.parallel.host:"; the message is the shared text
about parallel runs, whatever the host. -/
theorem UnreachableParallelHost_Heading_host (host : String) :
    (ginkgoErrors.UnreachableParallelHost host).Heading
        = "Could not reach ginkgo.parallel.host:" ++ host
    ∧ Contains (ginkgoErrors.UnreachableParallelHost host).Heading host
    ∧ (ginkgoErrors.UnreachableParallelHost host).Message
        = "It looks like you are trying to run tests in parallel with go test.\nThis is unsupported and you should use the ginkgo CLI instead." :=
  ⟨rfl, ⟨"Could not reach ginkgo.parallel.host:".data, [], by
    simp [ginkgoErrors.UnreachableParallelHost, String.data_append]⟩, rfl⟩

set_option maxRecDepth 100000 in
/-- C6 as stated fails for the host `127.0.0.1:7788`: the message does not contain it. -/
theorem UnreachableParallelHost_Message_lacks_host :
    ¬ Contains (ginkgoErrors.UnreachableParallelHost "127.0.0.1:7788").Message
        "127.0.0.1:7788" := by
  decide

set_option maxRecDepth 100000 in
/-- C7: the message of `CaughtPanicDuringABuildPhase` is the styled template followed by
the text `%v` prints for the captured payload, as it is: the message ends with exactly
that text, whatever markup tokens or percent signs it holds. -/
theorem CaughtPanicDuringABuildPhase_Message_payload (f : Formatter) (hf : f.VerbFree)
    (caughtPanic : Arg) (cl : CodeLocation) :
    (ginkgoErrors.CaughtPanicDuringABuildPhase f caughtPanic cl).Message
      = ("Ginkgo detected a panic while constructing the test tree.\nYou may be trying to make an assertion in the body of a container node\n(i.e. "
          ++ f.expand "bold" ++ "Describe" ++ f.expand "/" ++ ", " ++ f.expand "bold"
          ++ "Context" ++ f.expand "/" ++ ", or " ++ f.expand "bold" ++ "When"
          ++ f.expand "/"
          ++ ").\n\nPlease ensure all assertions are inside leaf nodes such as "
          ++ f.expand "bold" ++ "BeforeEach" ++ f.expand "/" ++ ",\n" ++ f.expand "bold"
          ++ "It" ++ f.expand "/" ++ ", etc.\n\n" ++ f.expand "bold"
          ++ "Here's the content of the panic that was caught:" ++ f.expand "/" ++ "\n")
        ++ caughtPanic.text := by
  apply String.ext
  simp [ginkgoErrors.CaughtPanicDuringABuildPhase, Formatter.F, Sprintf, Formatter.style,
    styleAux, sprintfAux, isFlag, sprintfAux_text_append, VerbFree.bold hf, VerbFree.reset hf,
    printVerb, extraOperands]

set_option maxRecDepth 100000 in
/-- C7 for a payload that holds a markup token and a directive, on the colour terminal. -/
theorem CaughtPanicDuringABuildPhase_Message_payload_witness :
    terminalFormatter.VerbFree
    ∧ (ginkgoErrors.CaughtPanicDuringABuildPhase terminalFormatter
        (strArg "{{bold}}100%s done") ⟨"b_test.go", 10⟩).Message
      = "Ginkgo detected a panic while constructing the test tree.\nYou may be trying to make an assertion in the body of a container node\n(i.e. \x1b[1mDescribe\x1b[0m, \x1b[1mContext\x1b[0m, or \x1b[1mWhen\x1b[0m).\n\nPlease ensure all assertions are inside leaf nodes such as \x1b[1mBeforeEach\x1b[0m,\n\x1b[1mIt\x1b[0m, etc.\n\n\x1b[1mHere's the content of the panic that was caught:\x1b[0m\n"
        ++ "{{bold}}100%s done" :=
  ⟨by decide,
    (CaughtPanicDuringABuildPhase_Message_payload terminalFormatter (by decide)
      (strArg "{{bold}}100%s done") ⟨"b_test.go", 10⟩).trans (by decide)⟩

/-- C8: `SuiteNodeInNestedContext` and `SuiteNodeDuringRunPhase` take the anchor from the
kind: the one on suite reports exactly when the kind is a `ReportAfterSuite` kind, the one
on suite setup and teardown otherwise, and both constructors take the same one. -/
theorem SuiteNode_DocLink (f : Formatter) (T : Types NodeType) (k : NodeType)
    (cl : CodeLocation) :
    ((ginkgoErrors.SuiteNodeInNestedContext f T k cl).DocLink
        = "generating-custom-reports-when-a-test-suite-completes"
      ↔ T.Is k T.NodeTypeReportAfterSuite = true)
    ∧ ((ginkgoErrors.SuiteNodeInNestedContext f T k cl).DocLink
        = "global-setup-and-teardown-beforesuite-and-aftersuite"
      ↔ T.Is k T.NodeTypeReportAfterSuite = false)
    ∧ (ginkgoErrors.SuiteNodeDuringRunPhase f T k cl).DocLink
        = (ginkgoErrors.SuiteNodeInNestedContext f T k cl).DocLink := by
  cases h : T.Is k T.NodeTypeReportAfterSuite <;>
    simp [ginkgoErrors.SuiteNodeInNestedContext, ginkgoErrors.SuiteNodeDuringRunPhase, h]

/-- A fixed non-empty text followed by anything is not empty. -/
theorem append_ne_empty (a b : String) (h : a ≠ "") : a ++ b ≠ "" := by
  intro e
  have hd := congrArg String.data e
  rw [String.data_append] at hd
  have ha : a.data = [] := (List.append_eq_nil.mp hd).1
  exact h (String.ext ha)

/-- C9: every constructor of the catalog returns a diagnostic whose heading is not empty,
whatever its arguments. -/
theorem Heading_ne_empty (f : Formatter) (T : Types NodeType) :
    (∀ cl, (ginkgoErrors.UncaughtGinkgoPanic cl).Heading ≠ "")
    ∧ (ginkgoErrors.RerunningSuite f).Heading ≠ ""
    ∧ (∀ k cl, (ginkgoErrors.PushingNodeInRunPhase f T k cl).Heading ≠ "")
    ∧ (∀ p cl, (ginkgoErrors.CaughtPanicDuringABuildPhase f p cl).Heading ≠ "")
    ∧ (∀ k cl, (ginkgoErrors.SuiteNodeInNestedContext f T k cl).Heading ≠ "")
    ∧ (∀ k cl, (ginkgoErrors.SuiteNodeDuringRunPhase f T k cl).Heading ≠ "")
    ∧ (∀ k cl k' cl', (ginkgoErrors.MultipleBeforeSuiteNodes f T k cl k' cl').Heading ≠ "")
    ∧ (∀ k cl k' cl', (ginkgoErrors.MultipleAfterSuiteNodes f T k cl k' cl').Heading ≠ "")
    ∧ (∀ cl k d, (ginkgoErrors.InvalidDecorationForNodeType f T cl k d).Heading ≠ "")
    ∧ (∀ cl k, (ginkgoErrors.InvalidDeclarationOfFocusedAndPending f T cl k).Heading ≠ "")
    ∧ (∀ cl k d, (ginkgoErrors.UnknownDecoration f T cl k d).Heading ≠ "")
    ∧ (∀ t cl k, (ginkgoErrors.InvalidBodyType f T t cl k).Heading ≠ "")
    ∧ (∀ cl k, (ginkgoErrors.MultipleBodyFunctions f T cl k).Heading ≠ "")
    ∧ (∀ cl k, (ginkgoErrors.MissingBodyFunction f T cl k).Heading ≠ "")
    ∧ (∀ cl a, (ginkgoErrors.TooManyReportEntryValues f cl a).Heading ≠ "")
    ∧ (∀ cl, (ginkgoErrors.AddReportEntryNotDuringRunPhase f cl).Heading ≠ "")
    ∧ ginkgoErrors.AggregatedReportUnavailableDueToNodeDisappearing.Heading ≠ ""
    ∧ ginkgoErrors.SynchronizedBeforeSuiteFailedOnNode1.Heading ≠ ""
    ∧ ginkgoErrors.SynchronizedBeforeSuiteDisappearedOnNode1.Heading ≠ ""
    ∧ ginkgoErrors.InvalidParallelTotalConfiguration.Heading ≠ ""
    ∧ ginkgoErrors.InvalidParallelNodeConfiguration.Heading ≠ ""
    ∧ ginkgoErrors.MissingParallelHostConfiguration.Heading ≠ ""
    ∧ (∀ host, (ginkgoErrors.UnreachableParallelHost host).Heading ≠ "")
    ∧ ginkgoErrors.DryRunInParallelConfiguration.Heading ≠ ""
    ∧ ginkgoErrors.ConflictingVerboseSuccinctConfiguration.Heading ≠ ""
    ∧ ginkgoErrors.InvalidGoFlagCount.Heading ≠ ""
    ∧ ginkgoErrors.InvalidGoFlagParallel.Heading ≠ ""
    ∧ ginkgoErrors.BothRepeatAndUntilItFails.Heading ≠ "" := by
  refine ⟨?_, ?_, ?_, ?_, ?_, ?_, ?_, ?_, ?_, ?_, ?_, ?_, ?_, ?_, ?_, ?_, ?_, ?_, ?_, ?_,
    ?_, ?_, ?_, ?_, ?_, ?_, ?_, ?_⟩
  case refine_23 =>
    intro host
    exact append_ne_empty _ host (by decide)
  all_goals
    simp [ginkgoErrors.UncaughtGinkgoPanic, ginkgoErrors.RerunningSuite,
      ginkgoErrors.PushingNodeInRunPhase, ginkgoErrors.CaughtPanicDuringABuildPhase,
      ginkgoErrors.SuiteNodeInNestedContext, ginkgoErrors.SuiteNodeDuringRunPhase,
      ginkgoErrors.MultipleBeforeSuiteNodes, ginkgoErrors.MultipleAfterSuiteNodes,
      ginkgoErrors.ginkgoErrorMultipleSuiteNodes, ginkgoErrors.InvalidDecorationForNodeType,
      ginkgoErrors.InvalidDeclarationOfFocusedAndPending, ginkgoErrors.UnknownDecoration,
      ginkgoErrors.InvalidBodyType, ginkgoErrors.MultipleBodyFunctions,
      ginkgoErrors.MissingBodyFunction, ginkgoErrors.TooManyReportEntryValues,
      ginkgoErrors.AddReportEntryNotDuringRunPhase,
      ginkgoErrors.AggregatedReportUnavailableDueToNodeDisappearing,
      ginkgoErrors.SynchronizedBeforeSuiteFailedOnNode1,
      ginkgoErrors.SynchronizedBeforeSuiteDisappearedOnNode1,
      ginkgoErrors.InvalidParallelTotalConfiguration,
      ginkgoErrors.InvalidParallelNodeConfiguration,
      ginkgoErrors.MissingParallelHostConfiguration,
      ginkgoErrors.DryRunInParallelConfiguration,
      ginkgoErrors.ConflictingVerboseSuccinctConfiguration, ginkgoErrors.InvalidGoFlagCount,
      ginkgoErrors.InvalidGoFlagParallel, ginkgoErrors.BothRepeatAndUntilItFails]

/-- The message of the missing body function diagnostic. -/
theorem MissingBodyFunction_Message (f : Formatter) (T : Types NodeType) (hf : f.VerbFree)
    (cl : CodeLocation) (k : NodeType) :
    (ginkgoErrors.MissingBodyFunction f T cl k).Message
      = "[" ++ T.name k ++ "]" ++ " node must be passed a single " ++ f.expand "bold"
          ++ "func()" ++ f.expand "/" ++ " - but " ++ "none was passed in" ++ "." := by
  apply String.ext
  simp [ginkgoErrors.MissingBodyFunction, Formatter.F, Sprintf, Formatter.style,
    styleAux, sprintfAux, isFlag, sprintfAux_text_append, VerbFree.bold hf, VerbFree.reset hf,
    printVerb, extraOperands, Types.name]

/-- C10: `MissingBodyFunction` returns the heading "Missing Functions", a message that
contains the name of the kind in square brackets and the words "none was passed in", and
the location it was given, which for a location that is not the zero value is rendered on
the line beneath the heading. -/
theorem MissingBodyFunction_diagnostic (f : Formatter) (T : Types NodeType)
    (hf : f.VerbFree) (cl : CodeLocation) (k : NodeType) :
    (ginkgoErrors.MissingBodyFunction f T cl k).Heading = "Missing Functions"
    ∧ Contains (ginkgoErrors.MissingBodyFunction f T cl k).Message ("[" ++ T.name k ++ "]")
    ∧ Contains (ginkgoErrors.MissingBodyFunction f T cl k).Message "none was passed in"
    ∧ (ginkgoErrors.MissingBodyFunction f T cl k).CodeLocation = cl
    ∧ (cl ≠ CodeLocation.zero →
        ∃ rest, (ginkgoErrors.MissingBodyFunction f T cl k).Error f T
          = (f.expand "bold" ++ f.expand "red" ++ "Missing Functions" ++ f.expand "/" ++ "\n")
            ++ (f.expand "gray" ++ T.loc cl ++ f.expand "/" ++ "\n") ++ rest) := by
  refine ⟨rfl, ?_, ?_, rfl, fun h => ⟨_, Error_of_location f T _ hf h⟩⟩
  · refine ⟨[], (" node must be passed a single " ++ f.expand "bold" ++ "func()"
      ++ f.expand "/" ++ " - but " ++ "none was passed in" ++ ".").data, ?_⟩
    rw [MissingBodyFunction_Message f T hf]
    simp [String.data_append]
  · refine ⟨("[" ++ T.name k ++ "]" ++ " node must be passed a single " ++ f.expand "bold"
      ++ "func()" ++ f.expand "/" ++ " - but ").data, ".".data, ?_⟩
    rw [MissingBodyFunction_Message f T hf]
    simp [String.data_append]

set_option maxRecDepth 100000 in
/-- C10 for the kind `It` at line 42 of `suite_test.x`, on the terminal without styling. -/
theorem MissingBodyFunction_diagnostic_witness :
    plainFormatter.VerbFree
    ∧ (ginkgoErrors.MissingBodyFunction plainFormatter sampleTypes ⟨"suite_test.x", 42⟩
        SampleNodeType.It).Heading = "Missing Functions"
    ∧ Contains (ginkgoErrors.MissingBodyFunction plainFormatter sampleTypes
        ⟨"suite_test.x", 42⟩ SampleNodeType.It).Message "[It]"
    ∧ Contains (ginkgoErrors.MissingBodyFunction plainFormatter sampleTypes
        ⟨"suite_test.x", 42⟩ SampleNodeType.It).Message "none was passed in"
    ∧ (∃ rest, (ginkgoErrors.MissingBodyFunction plainFormatter sampleTypes
          ⟨"suite_test.x", 42⟩ SampleNodeType.It).Error plainFormatter sampleTypes
        = "Missing Functions\n" ++ "suite_test.x:42\n" ++ rest) :=
  have h := MissingBodyFunction_diagnostic plainFormatter sampleTypes (by decide)
    ⟨"suite_test.x", 42⟩ SampleNodeType.It
  ⟨by decide, h.1, h.2.1, h.2.2.1, h.2.2.2.2 (by decide)⟩

end Ginkgo
